import Mathlib

/-!
Verification of the cloudquill/python-projects repository: a shallow
embedding in Lean 4 of the Pycloud Deployer (tiered Azure infrastructure
orchestration), the Serverless Movies API (HTTP handlers over a document
database), and the Weather App CLI, together with proofs of the frozen
claims about them.

Conventions used throughout:
  * Python machine integers are unbounded, so `Nat`/`Int` model them directly.
  * Python floats in the unit-conversion helpers are modelled as exact
    rationals (`ℚ`); the conversion formulas only use decimal literals.
  * Fallible Python code (code that can raise) returns `Except PyErr _`;
    an uncaught exception is `.error`.
  * Remote SDK calls are modelled by an environment record supplying each
    call's outcome, and stateful orchestration code additionally emits a
    trace of the remote calls it issues.
  * Character classes (`\w`, `str.isdigit`, whitespace) are modelled over
    the ASCII range; every string the programs compare against these
    classes is ASCII.
-/

/-- Python exception kinds that the embedded code can raise. -/
inductive PyErr where
  | unboundLocal
  | indexError
  | keyError
  | typeError
  | valueError
  | connectionError
  | timeoutError
  | requestError (msg : String)
  | azureError
  deriving DecidableEq

/-- ASCII whitespace, the characters `str.strip()` and `int()` remove. -/
def isPyWs (c : Char) : Bool :=
  c = ' ' || c = '\t' || c = '\n' || c = '\r' || c = '\x0b' || c = '\x0c'

/-- Python `str.strip()` (ASCII model): drop whitespace from both ends. -/
def pyStrip (s : String) : String :=
  ⟨(s.data.dropWhile isPyWs).reverse.dropWhile isPyWs |>.reverse⟩

/-- Value of a hexadecimal digit, if the character is one. -/
def hexVal (c : Char) : Option Nat :=
  if '0' ≤ c ∧ c ≤ '9' then some (c.toNat - 48)
  else if 'a' ≤ c ∧ c ≤ 'f' then some (c.toNat - 87)
  else if 'A' ≤ c ∧ c ≤ 'F' then some (c.toNat - 70)
  else none

/-- Core of `urllib.parse.unquote` (single-byte model): decode `%HH`
escapes, leaving malformed escapes untouched. -/
def unquoteChars : List Char → List Char
  | [] => []
  | '%' :: a :: b :: rest =>
    match hexVal a, hexVal b with
    | some x, some y => Char.ofNat (16 * x + y) :: unquoteChars rest
    | _, _ => '%' :: unquoteChars (a :: b :: rest)
  | c :: rest => c :: unquoteChars rest

/-- `urllib.parse.unquote` on a string (single-byte model). -/
def pyUnquote (s : String) : String := ⟨unquoteChars s.data⟩

/-- Python `str.split(sep)` for a single-character separator, on
character lists: splits at every separator, keeping empty parts. -/
def splitOnChar (sep : Char) : List Char → List (List Char)
  | [] => [[]]
  | c :: rest =>
    let r := splitOnChar sep rest
    if c = sep then [] :: r
    else
      match r with
      | [] => [[c]]
      | g :: gs => (c :: g) :: gs

/-- Python `s.split(sep)` for a single-character separator. -/
def pySplit (s : String) (sep : Char) : List String :=
  (splitOnChar sep s.data).map String.mk

/-- Digit-sequence scanner for Python `int()`: accepts one or more ASCII
digits with single underscores allowed between digits, returning the
value. `prevDigit` records whether the previous character was a digit. -/
def digitCore : List Char → Bool → Nat → Option Nat
  | [], prevDigit, acc => if prevDigit then some acc else none
  | c :: rest, prevDigit, acc =>
    if c.isDigit then digitCore rest true (10 * acc + (c.toNat - 48))
    else if c = '_' ∧ prevDigit then digitCore rest false acc
    else none

/-- Python `int(s)` (ASCII model): strip whitespace, optional sign, then
digits with optional single underscores between digits; `none` models a
raised `ValueError`. -/
def pyIntParse (s : String) : Option Int :=
  let cs := (s.data.dropWhile isPyWs).reverse.dropWhile isPyWs |>.reverse
  match cs with
  | [] => none
  | c :: rest =>
    if c = '+' then (digitCore rest false 0).map Int.ofNat
    else if c = '-' then (digitCore rest false 0).map (fun n => -(Int.ofNat n))
    else (digitCore cs false 0).map Int.ofNat

/-- Does `nd` occur as a contiguous run at the head of `hay`? -/
def leadsWith : List Char → List Char → Bool
  | [], _ => true
  | _ :: _, [] => false
  | n :: ns, h :: hs => n = h && leadsWith ns hs

/-- Does `nd` occur as a contiguous run anywhere in `hay`? Models the
Python substring test `nd in hay`. -/
def containsSub (nd : List Char) : List Char → Bool
  | [] => leadsWith nd []
  | h :: hs => leadsWith nd (h :: hs) || containsSub nd hs

/-- JSON values as produced and consumed by the Movies API. -/
inductive Json where
  | null
  | bool (b : Bool)
  | int (n : Int)
  | str (s : String)
  | arr (xs : List Json)
  | obj (kvs : List (String × Json))
  deriving Inhabited

/-- Indentation emitted by `json.dumps(..., indent=4)` at nesting `lvl`. -/
def pad (lvl : Nat) : String := String.mk (List.replicate (4 * lvl) ' ')

/-- Four-digit lowercase hexadecimal rendering, as in Python `\uXXXX`
escapes. -/
def hex4 (n : Nat) : String :=
  let dig := fun (k : Nat) =>
    if k < 10 then Char.ofNat (48 + k) else Char.ofNat (87 + k)
  ⟨[dig (n / 4096 % 16), dig (n / 256 % 16), dig (n / 16 % 16), dig (n % 16)]⟩

/-- Escape one character the way `json.dumps` (with its default
`ensure_ascii=True`) renders it inside a string literal. -/
def escChar (c : Char) : String :=
  if c = '"' then "\\\""
  else if c = '\\' then "\\\\"
  else if c = '\n' then "\\n"
  else if c = '\t' then "\\t"
  else if c = '\r' then "\\r"
  else if c = '\x08' then "\\b"
  else if c = '\x0c' then "\\f"
  else if c.toNat < 0x20 ∨ 0x7e < c.toNat then
    if c.toNat ≤ 0xffff then "\\u" ++ hex4 c.toNat
    else
      "\\u" ++ hex4 (0xd800 + (c.toNat - 0x10000) / 0x400) ++
      "\\u" ++ hex4 (0xdc00 + (c.toNat - 0x10000) % 0x400)
  else String.singleton c

/-- A JSON string literal as `json.dumps` emits it. -/
def pyQuote (s : String) : String :=
  "\"" ++ String.join (s.data.map escChar) ++ "\""

mutual

/-- `json.dumps(j, indent=4)` at nesting level `lvl`. -/
def pyDumpsAux : Json → Nat → String
  | .null, _ => "null"
  | .bool true, _ => "true"
  | .bool false, _ => "false"
  | .int n, _ => toString n
  | .str s, _ => pyQuote s
  | .arr [], _ => "[]"
  | .arr (x :: xs), lvl =>
    "[\n" ++ pad (lvl + 1) ++ pyDumpsItems (x :: xs) (lvl + 1) ++ "\n" ++ pad lvl ++ "]"
  | .obj [], _ => "\x7b\x7d"
  | .obj (kv :: kvs), lvl =>
    "\x7b\n" ++ pad (lvl + 1) ++ pyDumpsPairs (kv :: kvs) (lvl + 1) ++ "\n" ++ pad lvl ++ "\x7d"

/-- Comma-and-newline separated array items. -/
def pyDumpsItems : List Json → Nat → String
  | [], _ => ""
  | [x], lvl => pyDumpsAux x lvl
  | x :: y :: ys, lvl => pyDumpsAux x lvl ++ ",\n" ++ pad lvl ++ pyDumpsItems (y :: ys) lvl

/-- Comma-and-newline separated object entries, keys rendered before
values with the `": "` separator. -/
def pyDumpsPairs : List (String × Json) → Nat → String
  | [], _ => ""
  | [(k, v)], lvl => pyQuote k ++ ": " ++ pyDumpsAux v lvl
  | (k, v) :: p :: ps, lvl =>
    pyQuote k ++ ": " ++ pyDumpsAux v lvl ++ ",\n" ++ pad lvl ++ pyDumpsPairs (p :: ps) lvl

end

/-- `json.dumps(j, indent=4)`. -/
def pyDumps4 (j : Json) : String := pyDumpsAux j 0

/-! ## Weather App (`src/Weather App/unit_conversions.py`, `weather_app.py`)
and the legacy standalone CLI (`src/weather_app.py`). Python floats are
modelled as exact rationals. -/

namespace WeatherApp

/-- `unit_conversions.temperature_fahrenheit`. -/
def temperature_fahrenheit (temp : ℚ) : ℚ := (temp * 1.8) + 32

/-- `unit_conversions.temperature_kelvin`. -/
def temperature_kelvin (temp : ℚ) : ℚ := temp + 273.15

/-- `unit_conversions.wind_speed_mph`. -/
def wind_speed_mph (wnd_spd : ℚ) : ℚ := wnd_spd * 2.23694

/-- `unit_conversions.wind_speed_kmh`. -/
def wind_speed_kmh (wnd_spd : ℚ) : ℚ := wnd_spd * 3.6

/-- Configuration module: the WeatherBit API key from the environment. -/
structure Config where
  apiKey : String

/-- Outcome of one `requests.get` call, as the surrounding code can
observe it: a response with a status code and parsed JSON body, or one of
the `requests` exceptions the code distinguishes. -/
inductive ReqOutcome where
  | connErr
  | timeoutErr
  | reqErr (msg : String)
  | resp (status : Nat) (body : Json)

/-- The external world of the weather CLIs: what `requests.get` does for
each URL. -/
structure Env where
  request : String → ReqOutcome

/-- The WeatherBit URL both CLIs build for a city. -/
def weatherUrl (cfg : Config) (city : String) : String :=
  "https://api.weatherbit.io/v2.0/current?city=" ++ city ++ "&key=" ++ cfg.apiKey

/-- A Python value that is either a `str` (an error message) or the
parsed-JSON dictionary: the union of types `make_api_request` returns. -/
inductive ApiResult where
  | str (s : String)
  | json (j : Json)
  deriving Inhabited

/-- `weather_app.make_api_request` (`src/Weather App/weather_app.py`):
calls the API and turns every handled failure into an error-message
string. The only constructor-producing branches are those of the source;
the function is total, mirroring that each listed exception is caught. -/
def make_api_request (cfg : Config) (env : Env) (city : String) : ApiResult :=
  match env.request (weatherUrl cfg city) with
  | .resp status body =>
    if status = 200 then .json body
    else .str ("API request failed with status code: " ++ toString status)
  | .connErr =>
    .str "Couldn\x27t complete your request because you are not connected to the internet. Please check your internet connection and try again."
  | .timeoutErr => .str "Your request timed out. Please try again later."
  | .reqErr m => .str ("An error occurred during the API request: " ++ m)

/-- `get_weather` of the legacy root-level `src/weather_app.py`: a bare
`requests.get` + `response.json()` with no exception handling, so every
`requests` exception propagates to the caller. -/
def get_weather_legacy (cfg : Config) (env : Env) (city : String) :
    Except PyErr Json :=
  match env.request (weatherUrl cfg city) with
  | .resp _ body => .ok body
  | .connErr => .error .connectionError
  | .timeoutErr => .error .timeoutError
  | .reqErr m => .error (.requestError m)

/-- `weather_app.get_user_input`: prompt until the user enters nothing
(default 1) or a digit string between 1 and 3; `inputs` models the stdin
lines, `none` models the stream running out while the loop keeps asking. -/
def get_user_input : List String → Option Nat
  | [] => none
  | u :: rest =>
    if u.length = 0 then some 1
    else if ¬ u.data.all Char.isDigit then get_user_input rest
    else
      match digitCore u.data false 0 with
      | some n => if 1 ≤ n ∧ n ≤ 3 then some n else get_user_input rest
      | none => get_user_input rest

/-- The `temperature_conversion` dictionary built in `display_weather`;
`none` models a `KeyError` on lookup. -/
def temperature_conversion (unit : Nat) : Option (ℚ → ℚ) :=
  if unit = 2 then some temperature_kelvin
  else if unit = 3 then some temperature_fahrenheit
  else if unit = 1 then some (fun x => x)
  else none

/-- The `wind_speed_conversion` dictionary built in `display_weather`;
`none` models a `KeyError` on lookup. -/
def wind_speed_conversion (unit : Nat) : Option (ℚ → ℚ) :=
  if unit = 2 then some wind_speed_mph
  else if unit = 3 then some wind_speed_kmh
  else if unit = 1 then some (fun x => x)
  else none

end WeatherApp

/-! ## Serverless Movies API (`src/Serverless Movies API/modules.py`,
`function_app.py`). The Cosmos container and the Cohere client are the
external world, modelled by `MoviesApi.Env`. -/

namespace MoviesApi

/-- One element of a Cohere chat response's `message.content`. -/
structure AiContent where
  text : String
  deriving DecidableEq

/-- The `message` field of a Cohere chat response. -/
structure AiMessage where
  content : List AiContent
  deriving DecidableEq

/-- A Cohere `co.chat` response object. -/
structure AiResp where
  message : AiMessage
  deriving DecidableEq

/-- The external world: what `container.query_items` returns for a query
with parameters (`.error` models a raised exception), and what `co.chat`
does (`.error` models any exception, caught by the bare `except`). -/
structure Env where
  db : String → List (String × Json) → Except Unit (List Json)
  cohere : Except Unit AiResp

/-- Python subscription `j[k]` on a (modelled) deserialized JSON value:
`KeyError` when the key is missing from a dict, `TypeError` when the
value is not a dict. -/
def pySub (j : Json) (k : String) : Except PyErr Json :=
  match j with
  | .obj kvs =>
    match kvs.lookup k with
    | some v => .ok v
    | none => .error .keyError
  | _ => .error .typeError

/-- The argument union of `display_result`: a list from the database, or
an error-message string. -/
inductive DRInput where
  | lst (l : List Json)
  | str (s : String)

/-- The elements of a JSON array when they are all strings (the check
`", ".join` effectively performs while iterating). -/
def strList : List Json → Option (List String)
  | [] => some []
  | .str s :: rest => (strList rest).map (fun l => s :: l)
  | _ :: _ => none

/-- `", ".join(x)` for `x` the `genres` value: joins a list of strings,
iterates a string character by character, and raises `TypeError`
otherwise (also on non-string list elements). -/
def pyJoinGenres (j : Json) : Except PyErr String :=
  match j with
  | .arr gs =>
    match strList gs with
    | some strs => .ok (String.intercalate ", " strs)
    | none => .error .typeError
  | .str s => .ok (String.intercalate ", " (s.data.map String.singleton))
  | _ => .error .typeError

/-- `modules.display_result(result, ai_summary='')`: with a truthy
`ai_summary` builds the `Title`/`Year`/`Genres`/`Summary` dict (in that
insertion order) from `result[0]` and dumps it; with the default falsy
summary dumps `result` itself. `ai_summary` is `none` for the default
`''` and `some resp` for a (truthy) Cohere response object. -/
def display_result (result : DRInput) (ai_summary : Option AiResp) :
    Except PyErr String :=
  match ai_summary with
  | some resp =>
    match result with
    | .str s =>
      -- result[0] on a str: IndexError when empty, else a one-character
      -- str, whose subscription by 'title' raises TypeError
      if s = "" then .error .indexError else .error .typeError
    | .lst [] => .error .indexError
    | .lst (m :: _) =>
      match pySub m "title" with
      | .error e => .error e
      | .ok t =>
        match pySub m "year" with
        | .error e => .error e
        | .ok y =>
          match pySub m "genres" with
          | .error e => .error e
          | .ok gs =>
            match pyJoinGenres gs with
            | .error e => .error e
            | .ok genres =>
              match resp.message.content with
              | [] => .error .indexError
              | c :: _ =>
                .ok (pyDumps4 (.obj
                  [("Title", t), ("Year", y), ("Genres", .str genres),
                   ("Summary", .str c.text)]))
  | none =>
    match result with
    | .lst l => .ok (pyDumps4 (.arr l))
    | .str s => .ok (pyDumps4 (.str s))

/-- The error message `query_db` renders on a database exception. -/
def dbErrMsg : String :=
  "An error occurred while querying the database. Please try again later."

/-- The value `query_db` hands back: a list of items, or (after a caught
exception) the JSON-dumped error-message string. -/
inductive QueryRes where
  | items (l : List Json)
  | errStr (s : String)

/-- `modules.query_db`: run the query and convert the result to a list;
on any exception return `display_result` of the error message. -/
def query_db (env : Env) (query : String) (parameters : List (String × Json)) :
    Except PyErr QueryRes :=
  match env.db query parameters with
  | .ok items => .ok (.items items)
  | .error _ => (display_result (.str dbErrMsg) none).map QueryRes.errStr

/-- `modules.fetch_movies`. -/
def fetch_movies (env : Env) : Except PyErr String :=
  match query_db env "SELECT c.title Title, c.year Year, c.genres Genres FROM c" [] with
  | .error e => .error e
  | .ok (.items l) => display_result (.lst l) none
  | .ok (.errStr s) => display_result (.str s) none

/-- `modules.fetch_movies_by_year` (the year is passed through as the
string taken from the URL). -/
def fetch_movies_by_year (env : Env) (year : String) : Except PyErr String :=
  match query_db env
      "SELECT c.title Title, c.year Year, c.genres Genres FROM c WHERE c.year = @year"
      [("@year", .str year)] with
  | .error e => .error e
  | .ok (.items l) => display_result (.lst l) none
  | .ok (.errStr s) => display_result (.str s) none

/-- Python `str(x)` on a deserialized JSON value, as used in the prompt
f-string (only scalars appear as `year` values in practice). -/
def pyToStr : Json → String
  | .int n => toString n
  | .str s => s
  | .bool true => "True"
  | .bool false => "False"
  | .null => "None"
  | _ => ""

/-- The query `fetch_movie_summary` sends to the container. -/
def movieSummaryQuery : String :=
  "SELECT c.title, c.year, c.genres FROM c WHERE LOWER(c.title) = LOWER(@movie_name)"

/-- `modules.fetch_movie_summary`: query for the movie; on an empty
result report it is missing; otherwise read `year` from the first item,
ask Cohere for a summary (any exception becomes an error message), and
render via `display_result`. A database exception makes `query_db` hand
back a truthy error string, which the subsequent `query_result[0]['year']`
subscripts as a string, raising `TypeError`. -/
def fetch_movie_summary (env : Env) (movie_name : String) :
    Except PyErr String :=
  match query_db env movieSummaryQuery [("@movie_name", .str movie_name)] with
  | .error e => .error e
  | .ok (.items []) => display_result (.str "Movie not in database.") none
  | .ok (.items (m :: rest)) =>
    match pySub m "year" with
    | .error e => .error e
    | .ok y =>
      let _instruction :=
        "Write a plot summary for the movie " ++ movie_name ++
        " released in " ++ pyToStr y
      match env.cohere with
      | .error _ =>
        display_result
          (.str ("An error occurred while generating a summary for " ++
                 movie_name ++ ". Please try again later.")) none
      | .ok resp => display_result (.lst (m :: rest)) (some resp)
  | .ok (.errStr s) =>
    -- query_result is the (never-empty) dumped error string; its first
    -- character is a str, and subscripting it by 'year' raises TypeError
    if s = "" then .error .indexError else .error .typeError

/-- An HTTP response as built by `func.HttpResponse`. -/
structure HttpResponse where
  body : String
  status : Nat
  mimetype : Option String
  deriving DecidableEq

/-- `function_app.getMovies`: always 200 with a JSON body. -/
def getMovies (env : Env) : Except PyErr HttpResponse :=
  match fetch_movies env with
  | .error e => .error e
  | .ok response => .ok ⟨response, 200, some "application/json"⟩

/-- The explanatory message `getMoviesByYear` returns with status 400. -/
def yearErrMsg : String :=
  "Please provide a valid year as part of the url: http://localhost:7071/api/getmoviesbyyear/year"

/-- `function_app.getMoviesByYear`: splits `req.url` on `/`, takes the
last part as the year, and guards it with
`if year and isinstance(int(year), int)` inside a `try` that catches only
`ValueError`. An empty last part skips the assignment of `response` and
the trailing `return func.HttpResponse(response, ...)` raises
`UnboundLocalError`. -/
def getMoviesByYear (env : Env) (url : String) : Except PyErr HttpResponse :=
  let url_parts := pySplit url '/'
  let year := url_parts.getLastD ""
  if year = "" then .error .unboundLocal
  else
    match pyIntParse year with
    | none => .ok ⟨yearErrMsg, 400, none⟩
    | some _ =>
      match fetch_movies_by_year env year with
      | .error e => .error e
      | .ok response => .ok ⟨response, 200, some "application/json"⟩

/-- The explanatory message `getMovieSummary` returns with status 400. -/
def movieErrMsg : String :=
  "Please provide a movie name as part of the url: http://localhost:7071/api/getmoviesbyyear/movie-name"

/-- `function_app.getMovieSummary`: strips and percent-decodes the last
URL part; an empty name yields 400, otherwise the summary is fetched. -/
def getMovieSummary (env : Env) (url : String) : Except PyErr HttpResponse :=
  let url_parts := pySplit url '/'
  let movie_name := pyUnquote (pyStrip (url_parts.getLastD ""))
  if movie_name = "" then .ok ⟨movieErrMsg, 400, none⟩
  else
    match fetch_movie_summary env movie_name with
    | .error e => .error e
    | .ok response => .ok ⟨response, 200, some "application/json"⟩

end MoviesApi

/-! ## Pycloud Deployer validation helpers and parameter builders
(`src/Pycloud Deployer/modules.py`, `config.py`). -/

namespace Deployer

/-- The deployer's configuration module: subscription id and location
read from the environment. -/
structure Config where
  subscription_id : String
  location : String

/-- `\w` over ASCII: letters, digits and underscore. -/
def wordChar (c : Char) : Bool := c.isAlphanum || c = '_'

/-- A character allowed by the group-name regex character class
`[\w_()\-.]`. -/
def groupNameChar (c : Char) : Bool :=
  wordChar c || c = '(' || c = ')' || c = '-' || c = '.'

/-- `re.match(r'^[\w_()\-.]+$', s)` succeeds: one or more characters of
the class, spanning the whole string. -/
def groupNameMatch (s : String) : Bool :=
  !s.data.isEmpty && s.data.all groupNameChar

/-- `modules.validate_group_name`: return the name unchanged when the
regex matches and it is at most 90 characters, otherwise prompt for
another name and re-check it; `inputs` models the stdin lines and `none`
the stream running out while the loop keeps asking. -/
def validate_group_name (group_name : String) (inputs : List String) :
    Option String :=
  if groupNameMatch group_name ∧ group_name.length ≤ 90 then some group_name
  else
    match inputs with
    | [] => none
    | i :: rest => validate_group_name i rest

/-- The reserved words `get_username` refuses as substrings. -/
def reserved_words : List String := ["admin", "root", "superuser", "user"]

/-- `re.match(r"^[\w][\w-]+$", u)` succeeds: a word character followed by
one or more word characters or hyphens, spanning the whole string. -/
def usernameMatch (u : String) : Bool :=
  match u.data with
  | [] => false
  | c :: rest => wordChar c && !rest.isEmpty && rest.all (fun d => wordChar d || d = '-')

/-- The lowercased username contains some reserved word as a substring:
`any(word in username.lower() for word in reserved_words)`. -/
def containsReserved (u : String) : Bool :=
  reserved_words.any (fun w => containsSub w.data (u.data.map Char.toLower))

/-- One username candidate passes every check of `get_username`. -/
def usernameOk (u : String) : Bool :=
  (9 < u.length && u.length < 64) && usernameMatch u && !containsReserved u

/-- `modules.get_username`: prompt until a candidate passes the length,
regex, and reserved-word checks. -/
def get_username : List String → Option String
  | [] => none
  | u :: rest => if usernameOk u then some u else get_username rest

/-- The four `password_requirements` character classes of `get_password`:
`[A-Z]`, `[a-z]`, `[0-9]`, `[$+#!^%*\-=]`, as `re.search` predicates. -/
def passwordClasses : List (Char → Bool) :=
  [fun c => 'A' ≤ c && c ≤ 'Z',
   fun c => 'a' ≤ c && c ≤ 'z',
   fun c => '0' ≤ c && c ≤ '9',
   fun c => c = '$' || c = '+' || c = '#' || c = '!' || c = '^' || c = '%' ||
            c = '*' || c = '-' || c = '=']

/-- `matches_passed`: how many of the four classes `re.search` finds in
the password. -/
def matches_passed (p : String) : Nat :=
  (passwordClasses.map (fun cls => if p.data.any cls then 1 else 0)).sum

/-- One password candidate passes both checks of `get_password`. -/
def passwordOk (p : String) : Bool :=
  (12 < p.length && p.length < 63) && decide (3 ≤ matches_passed p)

/-- `modules.get_password`: prompt (via `getpass`) until a candidate is
13–62 characters long and matches at least three of the four classes. -/
def get_password : List String → Option String
  | [] => none
  | p :: rest => if passwordOk p then some p else get_password rest

/-- The subnet resource id interpolated into the NIC parameters. -/
def subnetId (cfg : Config) (group_name vnet_name subnet_name : String) : String :=
  "/subscriptions/" ++ cfg.subscription_id ++ "/resourceGroups/" ++ group_name ++
  "/providers/Microsoft.Network/virtualNetworks/" ++ vnet_name ++
  "/subnets/" ++ subnet_name

/-- The public-IP resource id interpolated into the NIC parameters. -/
def publicIpId (cfg : Config) (group_name publicip_name : String) : String :=
  "/subscriptions/" ++ cfg.subscription_id ++ "/resourceGroups/" ++ group_name ++
  "/providers/Microsoft.Network/publicIPAddresses/" ++ publicip_name

/-- One entry of the `ip_configurations` list built by
`create_nic_params`; `public_ip_address` is the optional nested dict
(`none` after the `del`). -/
structure IpConfig where
  name : String
  subnet_id : String
  public_ip_address : Option String
  deriving DecidableEq

/-- The dictionary returned by `create_nic_params`. -/
structure NicParams where
  location : String
  ip_configurations : List IpConfig
  deriving DecidableEq

/-- `modules.create_nic_params`: build the NIC parameters with the
`public_ip_address` entry, then delete that entry from the single ip
configuration when `publicip_name` is the (default) empty string. -/
def create_nic_params (cfg : Config) (group_name vnet_name subnet_name : String)
    (publicip_name : String) : NicParams :=
  let nic_params : NicParams :=
    { location := cfg.location,
      ip_configurations :=
        [{ name := "MyIpConfig",
           subnet_id := subnetId cfg group_name vnet_name subnet_name,
           public_ip_address := some (publicIpId cfg group_name publicip_name) }] }
  if publicip_name = "" then
    { nic_params with
      ip_configurations :=
        nic_params.ip_configurations.modifyHead
          (fun c => { c with public_ip_address := none }) }
  else nic_params

end Deployer

/-! ## Pycloud Deployer orchestration (`src/Pycloud Deployer/infra_class.py`,
`server_class.py`, `load_balancer_class.py`). Each remote create/attach
call is recorded as an event; the environment supplies each call's
outcome. A raised-and-unhandled `AzureError` is `.error`, which aborts
the remaining sequence exactly as the Python exception does. -/

namespace Deployer

/-- One remote Azure management call issued by the orchestration code. -/
inductive Ev where
  | rgCheck (group : String)
  | rgCreate (group : String)
  | vnetCreate (vnet group : String)
  | nsgCreate (nsg group : String) (isTier2 : Bool)
  | subnetCreate (subnet group vnet nsgId : String)
  | pipCreate (pip group : String)
  | nicCreate (iface group : String)
  | vmCreate (vm group : String) (isWebServer : Bool)
  | runCmd (group vm : String)
  | lbCreate (lb group : String)
  | poolGet (group : String)
  | nicBackendUpdate (iface group : String)
  deriving DecidableEq

/-- A public IP resource object, as the code reads it back (`.id`,
`.ip_address`). -/
structure PipInfo where
  id : String
  ip_address : String
  deriving DecidableEq

/-- Outcomes of the remote calls. For calls whose result object the code
inspects, `Except Unit (Option _)`: `.error` is the exception the code
catches and converts to `AzureError`, `.ok none` a falsy result object,
`.ok (some _)` a truthy one. For fire-and-forget calls a `Bool` says
whether the call raises the exception the code (or its caller) handles. -/
structure AzureEnv where
  rgExists : String → Bool
  uuid5 : Nat → String
  rgInputs : List String
  vnetOk : Bool
  nsgResult : Except Unit (Option String)
  subnetOk : Bool
  pipResult : String → Except Unit (Option PipInfo)
  nicOk : String → Bool
  vmOk : String → Bool
  poolId : Option String
  nicUpdateOk : String → Bool

/-- A computation that issues remote calls (the trace) and either
returns a value or escapes with an exception. -/
abbrev Tr (α : Type) := List Ev × Except Unit α

/-- Sequencing: on an exception the remaining calls are never issued. -/
def andThen {α β : Type} (x : Tr α) (f : α → Tr β) : Tr β :=
  match x with
  | (t, .error e) => (t, .error e)
  | (t, .ok a) => (t ++ (f a).1, (f a).2)

/-- `Infrastructure.create_vnet`: one VNet create; on
`ResourceExistsError`/`HttpResponseError` an `AzureError` is raised. -/
def create_vnet (env : AzureEnv) (vnet_name group_name : String) : Tr Unit :=
  ([.vnetCreate vnet_name group_name], if env.vnetOk then .ok () else .error ())

/-- `Infrastructure.create_nsg_group`: one NSG create returning the NSG
info object; on `HttpResponseError` an `AzureError` is raised. -/
def create_nsg_group (env : AzureEnv) (nsg_name group_name : String)
    (isTier2 : Bool) : Tr (Option String) :=
  ([.nsgCreate nsg_name group_name isTier2], env.nsgResult)

/-- `Infrastructure.create_subnet`: one subnet create carrying the NSG
id; on `ResourceExistsError`/`HttpResponseError` an `AzureError` is
raised. -/
def create_subnet (env : AzureEnv) (subnet_name group_name vnet_name nsg_id : String) :
    Tr Unit :=
  ([.subnetCreate subnet_name group_name vnet_name nsg_id],
   if env.subnetOk then .ok () else .error ())

/-- `Infrastructure.create_infrastructure`: VNet, then NSG, then — only
if the NSG call returned its (truthy) info object — the subnet; a falsy
NSG result raises `AzureError` instead. -/
def create_infrastructure (env : AzureEnv)
    (group_name vnet_name subnet_name nsg_name : String) (isTier2 : Bool) :
    Tr Unit :=
  andThen (create_vnet env vnet_name group_name) fun _ =>
  andThen (create_nsg_group env nsg_name group_name isTier2) fun nsg_info =>
  match nsg_info with
  | some nsgId => create_subnet env subnet_name group_name vnet_name nsgId
  | none => ([], .error ())

/-- `Server.create_publicip_address`: one public-IP create returning the
info object; on `HttpResponseError` an `AzureError` is raised. -/
def create_publicip_address (env : AzureEnv) (publicip_name group_name : String) :
    Tr (Option PipInfo) :=
  ([.pipCreate publicip_name group_name], env.pipResult publicip_name)

/-- `Server.create_nic`: one NIC create; a `ResourceNotFoundError` is
turned into `AzureError` by the callers' try blocks. -/
def create_nic (env : AzureEnv) (interface_name group_name : String) : Tr Unit :=
  ([.nicCreate interface_name group_name],
   if env.nicOk interface_name then .ok () else .error ())

/-- `Server.install_iis`: one run-command call, fire and forget. -/
def install_iis (env : AzureEnv) (group_name webserver_name : String) : Tr Unit :=
  ([.runCmd group_name webserver_name], .ok ())

/-- `Server.create_webserver`: public IP, NIC, VM create (both wrapped so
`ResourceNotFoundError` becomes `AzureError`), then the IIS run-command;
the final IP printout issues no remote call. -/
def create_webserver (env : AzureEnv)
    (group_name vnet_name subnet_name webserver_name : String)
    (server_number : Nat) : Tr Unit :=
  let uname := webserver_name ++ toString server_number
  andThen (create_publicip_address env (uname ++ "_ip") group_name) fun _pip =>
  andThen (create_nic env (uname ++ "_interface") group_name) fun _ =>
  andThen (([.vmCreate uname group_name true],
            if env.vmOk uname then .ok () else .error ())) fun _ =>
  install_iis env group_name uname

/-- `DBServer.create_dbserver`: NIC then VM create, with
`ResourceNotFoundError` turned into `AzureError`; no public IP. -/
def create_dbserver (env : AzureEnv)
    (group_name vnet_name subnet_name dbserver_name : String) : Tr Unit :=
  andThen (create_nic env (dbserver_name ++ "_interface") group_name) fun _ =>
  ([.vmCreate dbserver_name group_name false],
   if env.vmOk dbserver_name then .ok () else .error ())

/-- `LoadBalancer.create_lb`: the frontend public IP first; a falsy IP
info object raises `AzureError`, otherwise the load-balancer create. -/
def create_lb (env : AzureEnv) (group_name : String) : Tr Unit :=
  let lb_name := group_name ++ "_lb"
  andThen (create_publicip_address env (lb_name ++ "_ip") group_name) fun pip =>
  match pip with
  | some _ => ([.lbCreate lb_name group_name], .ok ())
  | none => ([], .error ())

/-- The per-webserver NIC updates of `add_webserver_to_backend`; an
`HttpResponseError` on one update becomes `AzureError` and aborts the
remaining updates. -/
def backendLoop (env : AzureEnv) (group_name webserver_name : String) :
    List Nat → Tr Unit
  | [] => ([], .ok ())
  | k :: ks =>
    let iface := webserver_name ++ toString k ++ "_interface"
    andThen (([.nicBackendUpdate iface group_name],
              if env.nicUpdateOk iface then .ok () else .error ())) fun _ =>
    backendLoop env group_name webserver_name ks

/-- `LoadBalancer.add_webserver_to_backend`: read the backend-pool id
(a falsy id raises `AzureError`), then update each webserver's NIC with
the pool attached. -/
def add_webserver_to_backend (env : AzureEnv)
    (group_name webserver_name : String) (number_of_backend_servers : Nat) :
    Tr Unit :=
  andThen (([.poolGet group_name], .ok ())) fun _ =>
  match env.poolId with
  | none => ([], .error ())
  | some _ => backendLoop env group_name webserver_name (List.range number_of_backend_servers)

/-- The `for server_number in range(...)` webserver loop of `tier3`. -/
def webserverLoop (env : AzureEnv)
    (group_name vnet_name subnet_name webserver_name : String) :
    List Nat → Tr Unit
  | [] => ([], .ok ())
  | k :: ks =>
    andThen (create_webserver env group_name vnet_name subnet_name webserver_name k)
      fun _ =>
    webserverLoop env group_name vnet_name subnet_name webserver_name ks

/-- `Infrastructure.tier3`: support infrastructure, the webservers, the
DB server, the load balancer, and the backend-pool attachment, in source
order. -/
def tier3 (env : AzureEnv)
    (group_name vnet_name subnet_name nsg_name webserver_name dbserver_name : String)
    (number_of_webservers : Nat) : Tr Unit :=
  andThen (create_infrastructure env group_name vnet_name subnet_name nsg_name false)
    fun _ =>
  andThen (webserverLoop env group_name vnet_name subnet_name webserver_name
            (List.range number_of_webservers)) fun _ =>
  andThen (create_dbserver env group_name vnet_name subnet_name dbserver_name) fun _ =>
  andThen (create_lb env group_name) fun _ =>
  add_webserver_to_backend env group_name webserver_name number_of_webservers

/-- `Infrastructure.tier2`: support infrastructure, one webserver
(default `server_number=0`), and the DB server; no load balancer. -/
def tier2 (env : AzureEnv)
    (group_name vnet_name subnet_name nsg_name webserver_name dbserver_name : String) :
    Tr Unit :=
  andThen (create_infrastructure env group_name vnet_name subnet_name nsg_name true)
    fun _ =>
  andThen (create_webserver env group_name vnet_name subnet_name webserver_name 0)
    fun _ =>
  create_dbserver env group_name vnet_name subnet_name dbserver_name

/-- The tail of `Infrastructure.create_resource_group`: validate the name
(prompting on stdin if invalid) and create the group. -/
def rgFinish (env : AzureEnv) (group_name : String) : Tr String :=
  match validate_group_name group_name env.rgInputs with
  | some name => ([.rgCreate name], .ok name)
  | none => ([], .error ())

/-- `Infrastructure.create_resource_group`: check existence; if the name
exists, append a uuid-derived suffix and recurse, then (either way)
validate and create. `fuel` bounds the recursion depth (Python's own
recursion limit); `env.uuid5` supplies the uuid fragment per depth. -/
def create_resource_group (env : AzureEnv) : Nat → String → Tr String
  | 0, _ => ([], .error ())
  | fuel + 1, group_name =>
    andThen (([.rgCheck group_name], .ok ())) fun _ =>
    if env.rgExists group_name then
      let renamed := group_name ++ "-" ++ env.uuid5 fuel
      andThen (create_resource_group env fuel renamed) fun _ =>
      rgFinish env renamed
    else rgFinish env group_name

/-- Modelled from the spec: the CLI `setup` subcommand's tier-3 path. The
command-line entry point that drives `Infrastructure` is not under
`src/`; per the spec's orchestration sequence "resource group → VNet →
NSG → subnet → VM(s) → load balancer → backend-pool attach" it creates
the resource group first and then invokes `tier3` on the resulting
group name. -/
def setup_tier3 (env : AzureEnv) (fuel : Nat)
    (group_name vnet_name subnet_name nsg_name webserver_name dbserver_name : String)
    (number_of_webservers : Nat) : Tr Unit :=
  andThen (create_resource_group env fuel group_name) fun gName =>
  tier3 env gName vnet_name subnet_name nsg_name webserver_name dbserver_name
    number_of_webservers

/-- `Infrastructure.info`'s external reads: the three `list` calls, each
either raising (`.error`, caught and only logged) or returning its
listing. -/
structure InfoEnv where
  lbs : Except Unit (List String)
  vms : Except Unit (List String)
  pips : Except Unit (List (String × String))

/-- `Infrastructure.info`: derive the tier from whether the load-balancer
listing is empty, and pair each public-IP name (with the `_ip` suffix
sliced off) that names a VM with its address; `none` when a listing call
raised and the report was never printed. -/
def info (env : InfoEnv) : Option (Nat × List (String × String)) :=
  match env.lbs, env.vms, env.pips with
  | .ok check_lb, .ok vm_names, .ok pip_list =>
    some (if check_lb.isEmpty then 2 else 3,
          (pip_list.map (fun p => (p.1.dropRight 3, p.2))).filter
            (fun q => vm_names.contains q.1))
  | _, _, _ => none

end Deployer

/-! ## Theorems. The spec-side property of each claim is stated over the
embedded definitions above. -/

/-- The position of a remote call in the claimed provisioning order:
resource group (0), VNet (1), NSG (2), subnet (3), VM creation (4), load
balancer (5), backend-pool attach (6). Auxiliary calls (existence check,
public IPs, plain NIC creation, run-command, pool read) carry no
position. -/
def Deployer.majorPhase : Deployer.Ev → Option Nat
  | .rgCreate _ => some 0
  | .vnetCreate _ _ => some 1
  | .nsgCreate _ _ _ => some 2
  | .subnetCreate _ _ _ _ => some 3
  | .vmCreate _ _ _ => some 4
  | .lbCreate _ _ => some 5
  | .nicBackendUpdate _ _ => some 6
  | _ => none

/-- The sequence of claimed-order positions along a trace. -/
def Deployer.majors (t : List Deployer.Ev) : List Nat :=
  t.filterMap Deployer.majorPhase

/-- The positions along `t` are nondecreasing and lie within
`[lo, hi]`. -/
def Deployer.Phased (lo hi : Nat) (t : List Deployer.Ev) : Prop :=
  (Deployer.majors t).Pairwise (fun a b => a ≤ b) ∧
  ∀ p ∈ Deployer.majors t, lo ≤ p ∧ p ≤ hi

/-- No load-balancer creation call occurs in the trace. -/
def Deployer.NoLb (t : List Deployer.Ev) : Prop :=
  ∀ lb grp, Deployer.Ev.lbCreate lb grp ∉ t

/-- Every remote call of a full deployment succeeds and returns its
mandatory (truthy) object. -/
def Deployer.AllOk (env : Deployer.AzureEnv) : Prop :=
  (∀ g, env.rgExists g = false) ∧ env.vnetOk = true ∧
  (∃ id, env.nsgResult = .ok (some id)) ∧ env.subnetOk = true ∧
  (∀ p, ∃ i, env.pipResult p = .ok (some i)) ∧
  (∀ i, env.nicOk i = true) ∧ (∀ v, env.vmOk v = true) ∧
  (∃ pid, env.poolId = some pid) ∧ (∀ i, env.nicUpdateOk i = true)

/-- A concrete all-success environment. -/
def Deployer.happyEnv : Deployer.AzureEnv :=
  { rgExists := fun _ => false, uuid5 := fun _ => "ab1cd", rgInputs := [],
    vnetOk := true, nsgResult := .ok (some "nsg-id"), subnetOk := true,
    pipResult := fun p => .ok (some ⟨p ++ "-id", "20.0.0.7"⟩),
    nicOk := fun _ => true, vmOk := fun _ => true,
    poolId := some "pool-id", nicUpdateOk := fun _ => true }

/-- The claimed order of a complete tier-3 deployment's major calls:
resource group, VNet, NSG, subnet, the `n` webserver VMs and the DB
server VM, the load balancer, and the `n` backend-pool attachments. -/
def Deployer.tier3Majors (n : Nat) : List Nat :=
  [0, 1, 2, 3] ++ List.replicate n 4 ++ [4, 5] ++ List.replicate n 6

/-- A well-formed movie record as the summary queries project it: the
`title`, `year` and `genres` subscriptions succeed, and the genres join
cleanly. -/
def MoviesApi.MovieRecOk (m : Json) : Prop :=
  (∃ t, MoviesApi.pySub m "title" = .ok t) ∧
  (∃ y, MoviesApi.pySub m "year" = .ok y) ∧
  (∃ gj gen, MoviesApi.pySub m "genres" = .ok gj ∧
    MoviesApi.pyJoinGenres gj = .ok gen)

/-- The Cohere response, when the chat call succeeds, has non-empty
`message.content` (otherwise `display_result`'s `content[0]` raises). -/
def MoviesApi.CohereOk (env : MoviesApi.Env) : Prop :=
  ∀ r, env.cohere = .ok r → r.message.content ≠ []

/-- The acceptance condition of the group-name check, spelled out as the
spec states it: the string matches the anchored character-class regex
(one or more characters, each alphanumeric, underscore, parenthesis,
hyphen or period) and has at most 90 characters. -/
def ValidGroupName (s : String) : Prop :=
  s.data ≠ [] ∧ (∀ c ∈ s.data, Deployer.groupNameChar c = true) ∧ s.length ≤ 90

instance : DecidablePred ValidGroupName := fun s => by
  unfold ValidGroupName; infer_instance

lemma groupName_accept_iff (s : String) :
    (Deployer.groupNameMatch s ∧ s.length ≤ 90) ↔ ValidGroupName s := by
  unfold Deployer.groupNameMatch ValidGroupName
  simp [List.all_eq_true, List.isEmpty_iff, and_assoc]

/-- C4: `validate_group_name(s)` returns `s` unchanged exactly when `s`
matches `^[\w_()\-.]+$` and has at most 90 characters; any value it ever
returns satisfies those checks; and an invalid `s` is rejected, the
function instead validating the next prompted name. -/
theorem c4_validate_group_name :
    (∀ s : String,
      (Deployer.validate_group_name s [] = some s ↔ ValidGroupName s)) ∧
    (∀ s ins t, Deployer.validate_group_name s ins = some t → ValidGroupName t) ∧
    (∀ s i ins, ¬ ValidGroupName s →
      Deployer.validate_group_name s (i :: ins) = Deployer.validate_group_name i ins) := by
  refine ⟨fun s => ?_, fun s ins => ?_, fun s i ins h => ?_⟩
  · rw [Deployer.validate_group_name]
    by_cases h : Deployer.groupNameMatch s ∧ s.length ≤ 90
    · simp [h, (groupName_accept_iff s).mp h]
    · simp [h]
      exact fun hv => h ((groupName_accept_iff s).mpr hv)
  · induction ins generalizing s with
    | nil =>
      intro t h
      rw [Deployer.validate_group_name] at h
      by_cases hc : Deployer.groupNameMatch s ∧ s.length ≤ 90
      · simp [hc] at h
        exact h ▸ (groupName_accept_iff s).mp hc
      · simp [hc] at h
    | cons i rest ih =>
      intro t h
      rw [Deployer.validate_group_name] at h
      by_cases hc : Deployer.groupNameMatch s ∧ s.length ≤ 90
      · simp [hc] at h
        exact h ▸ (groupName_accept_iff s).mp hc
      · simp [hc] at h
        exact ih i t h
  · rw [Deployer.validate_group_name]
    have hc : ¬ (Deployer.groupNameMatch s ∧ s.length ≤ 90) :=
      fun hv => h ((groupName_accept_iff s).mp hv)
    simp [hc]

/-- Witness for C4 at concrete inputs: a valid name is returned
unchanged, and an invalid one (it contains a space) is replaced by the
next prompted name. -/
theorem c4_witness :
    Deployer.validate_group_name "a(b)-c.1_" [] = some "a(b)-c.1_" ∧
    Deployer.validate_group_name "bad name" ["grp-2"] = some "grp-2" := by
  constructor
  · exact (c4_validate_group_name.1 "a(b)-c.1_").mpr (by decide)
  · rw [c4_validate_group_name.2.2 "bad name" "grp-2" [] (by decide)]
    exact (c4_validate_group_name.1 "grp-2").mpr (by decide)

/-- C5: the unit-conversion arithmetic is exactly the stated formulas
(over exact rationals), and is exact on known inputs. -/
theorem c5_unit_conversions :
    (∀ t : ℚ, WeatherApp.temperature_fahrenheit t = t * 1.8 + 32) ∧
    (∀ t : ℚ, WeatherApp.temperature_kelvin t = t + 273.15) ∧
    (∀ w : ℚ, WeatherApp.wind_speed_mph w = w * 2.23694) ∧
    (∀ w : ℚ, WeatherApp.wind_speed_kmh w = w * 3.6) ∧
    WeatherApp.temperature_fahrenheit 100 = 212 ∧
    WeatherApp.temperature_fahrenheit (-40) = -40 ∧
    WeatherApp.temperature_kelvin 0 = 273.15 ∧
    WeatherApp.wind_speed_mph 2 = 4.47388 ∧
    WeatherApp.wind_speed_kmh 10 = 36 := by
  refine ⟨fun _ => rfl, fun _ => rfl, fun _ => rfl, fun _ => rfl, ?_, ?_, ?_, ?_, ?_⟩ <;>
    norm_num [WeatherApp.temperature_fahrenheit, WeatherApp.temperature_kelvin,
      WeatherApp.wind_speed_mph, WeatherApp.wind_speed_kmh]

/-- Witness for C5: the Celsius-to-Fahrenheit conversion evaluated at a
concrete input through the theorem. -/
theorem c5_witness : WeatherApp.temperature_fahrenheit 100 = 212 :=
  c5_unit_conversions.2.2.2.2.1

/-- C8: any password `get_password` returns is 13–62 characters long and
matches at least three of the four character classes; any username
`get_username` returns is 10–63 characters long, matches `^[\w][\w-]+$`,
and contains no reserved word as a case-insensitive substring. -/
theorem c8_credential_validation :
    (∀ ins p, Deployer.get_password ins = some p →
      (12 < p.length ∧ p.length < 63) ∧ 3 ≤ Deployer.matches_passed p) ∧
    (∀ ins u, Deployer.get_username ins = some u →
      (9 < u.length ∧ u.length < 64) ∧ Deployer.usernameMatch u = true ∧
      ∀ w ∈ Deployer.reserved_words,
        containsSub w.data (u.data.map Char.toLower) = false) := by
  constructor
  · intro ins
    induction ins with
    | nil => intro p h; simp [Deployer.get_password] at h
    | cons q rest ih =>
      intro p h
      rw [Deployer.get_password] at h
      by_cases hq : Deployer.passwordOk q
      · simp [hq] at h
        subst h
        have := hq
        unfold Deployer.passwordOk at this
        simp only [Bool.and_eq_true, decide_eq_true_eq] at this
        exact ⟨⟨this.1.1, this.1.2⟩, this.2⟩
      · simp [hq] at h
        exact ih p h
  · intro ins
    induction ins with
    | nil => intro u h; simp [Deployer.get_username] at h
    | cons q rest ih =>
      intro u h
      rw [Deployer.get_username] at h
      by_cases hq : Deployer.usernameOk q
      · simp [hq] at h
        subst h
        have := hq
        unfold Deployer.usernameOk Deployer.containsReserved at this
        simp only [Bool.and_eq_true, Bool.not_eq_true', List.any_eq_false,
          decide_eq_true_eq] at this
        exact ⟨⟨this.1.1.1, this.1.1.2⟩, this.1.2,
          fun w hw => by simpa using this.2 w hw⟩
      · simp [hq] at h
        exact ih u h

/-- Witness for C8: a concrete rejected-then-accepted stdin stream for
each of the two prompts. -/
theorem c8_witness :
    ((12 < ("Str0ng-Passw0rd!" : String).length ∧
      ("Str0ng-Passw0rd!" : String).length < 63) ∧
      3 ≤ Deployer.matches_passed "Str0ng-Passw0rd!") ∧
    ((9 < ("cloud-dev-01" : String).length ∧
      ("cloud-dev-01" : String).length < 64) ∧
      Deployer.usernameMatch "cloud-dev-01" = true ∧
      ∀ w ∈ Deployer.reserved_words,
        containsSub w.data (("cloud-dev-01" : String).data.map Char.toLower) = false) :=
  ⟨c8_credential_validation.1 ["short", "Str0ng-Passw0rd!"] "Str0ng-Passw0rd!"
      (by decide),
   c8_credential_validation.2 ["admin", "cloud-dev-01"] "cloud-dev-01" (by decide)⟩

/-- C9: whenever `get_user_input` returns, the value is 1, 2 or 3, and
both conversion-dictionary lookups in `display_weather` succeed on it;
an empty input line returns the default 1. -/
theorem c9_get_user_input_safe :
    (∀ ins v, WeatherApp.get_user_input ins = some v →
      (v = 1 ∨ v = 2 ∨ v = 3) ∧
      (WeatherApp.temperature_conversion v).isSome = true ∧
      (WeatherApp.wind_speed_conversion v).isSome = true) ∧
    (∀ rest, WeatherApp.get_user_input ("" :: rest) = some 1) := by
  have hmem : ∀ v : Nat, (v = 1 ∨ v = 2 ∨ v = 3) →
      (WeatherApp.temperature_conversion v).isSome = true ∧
      (WeatherApp.wind_speed_conversion v).isSome = true := by
    rintro v (rfl | rfl | rfl) <;>
      simp [WeatherApp.temperature_conversion, WeatherApp.wind_speed_conversion]
  constructor
  · intro ins
    induction ins with
    | nil => intro v h; simp [WeatherApp.get_user_input] at h
    | cons u rest ih =>
      intro v h
      rw [WeatherApp.get_user_input] at h
      by_cases h0 : u.length = 0
      · rw [if_pos h0] at h
        injection h with h
        subst h
        exact ⟨Or.inl rfl, hmem 1 (Or.inl rfl)⟩
      · rw [if_neg h0] at h
        by_cases hd : u.data.all Char.isDigit = true
        · rw [if_neg (fun hc => hc hd)] at h
          match hn : digitCore u.data false 0 with
          | some n =>
            rw [hn] at h
            dsimp only at h
            by_cases hr : 1 ≤ n ∧ n ≤ 3
            · rw [if_pos hr] at h
              injection h with h
              subst h
              have hv : n = 1 ∨ n = 2 ∨ n = 3 := by omega
              exact ⟨hv, hmem n hv⟩
            · rw [if_neg hr] at h
              exact ih v h
          | none =>
            rw [hn] at h
            dsimp only at h
            exact ih v h
        · rw [if_pos hd] at h
          exact ih v h
  · intro rest
    rw [WeatherApp.get_user_input]
    simp

/-- Witness for C9: a stream with an out-of-class line, an out-of-range
line, then `2`; and the empty-line default. -/
theorem c9_witness :
    ((2 = 1 ∨ 2 = 2 ∨ 2 = 3) ∧
      (WeatherApp.temperature_conversion 2).isSome = true ∧
      (WeatherApp.wind_speed_conversion 2).isSome = true) ∧
    WeatherApp.get_user_input [""] = some 1 :=
  ⟨c9_get_user_input_safe.1 ["abc", "7", "2"] 2 (by decide),
   c9_get_user_input_safe.2 []⟩

/-- C10: `create_nic_params` always yields a single ip configuration,
whose `public_ip_address` entry is present exactly when `publicip_name`
is non-empty; the `location` and the subnet id are fixed expressions not
involving `publicip_name` at all. -/
theorem c10_create_nic_params :
    ∀ (cfg : Deployer.Config) (g v s p : String),
      (Deployer.create_nic_params cfg g v s p).location = cfg.location ∧
      (Deployer.create_nic_params cfg g v s p).ip_configurations.map
        Deployer.IpConfig.subnet_id = [Deployer.subnetId cfg g v s] ∧
      ∃ c, (Deployer.create_nic_params cfg g v s p).ip_configurations = [c] ∧
        (c.public_ip_address.isSome = true ↔ p ≠ "") := by
  intro cfg g v s p
  by_cases hp : p = ""
  · subst hp
    refine ⟨rfl, rfl, ⟨_, rfl, ?_⟩⟩
    simp [Deployer.create_nic_params, List.modifyHead]
  · rw [Deployer.create_nic_params]
    rw [if_neg hp]
    exact ⟨rfl, rfl, ⟨_, rfl, by simp [hp]⟩⟩

/-- Witness for C10 at concrete names, one call with and one without a
public IP name. -/
theorem c10_witness :
    (Deployer.create_nic_params ⟨"sub", "loc"⟩ "g" "v" "s" "web0_ip").location =
      "loc" ∧
    ∃ c, (Deployer.create_nic_params ⟨"sub", "loc"⟩ "g" "v" "s" "").ip_configurations
        = [c] ∧ (c.public_ip_address.isSome = true ↔ ("" : String) ≠ "") :=
  ⟨(c10_create_nic_params ⟨"sub", "loc"⟩ "g" "v" "s" "web0_ip").1,
   (c10_create_nic_params ⟨"sub", "loc"⟩ "g" "v" "s" "").2.2⟩

/-- `query_db` when the container raises: the caught exception becomes
the JSON-dumped error-message string. -/
lemma query_db_error (env : MoviesApi.Env) (q : String)
    (ps : List (String × Json)) (h : env.db q ps = .error ()) :
    MoviesApi.query_db env q ps =
      .ok (.errStr (pyDumps4 (.str MoviesApi.dbErrMsg))) := by
  rw [MoviesApi.query_db, h]
  rfl

/-- `query_db` when the container answers: the items, as a list. -/
lemma query_db_items (env : MoviesApi.Env) (q : String)
    (ps : List (String × Json)) (l : List Json) (h : env.db q ps = .ok l) :
    MoviesApi.query_db env q ps = .ok (.items l) := by
  rw [MoviesApi.query_db, h]

/-- `fetch_movies` always succeeds with a dumped JSON value. -/
lemma fetch_movies_is_json (env : MoviesApi.Env) :
    ∃ j, MoviesApi.fetch_movies env = .ok (pyDumps4 j) := by
  rw [MoviesApi.fetch_movies]
  rcases h : env.db "SELECT c.title Title, c.year Year, c.genres Genres FROM c" [] with
    ⟨⟩ | l
  · rw [query_db_error env _ _ h]
    exact ⟨.str (pyDumps4 (.str MoviesApi.dbErrMsg)), rfl⟩
  · rw [query_db_items env _ _ l h]
    exact ⟨.arr l, rfl⟩

/-- `fetch_movies_by_year` always succeeds with a dumped JSON value. -/
lemma fetch_movies_by_year_is_json (env : MoviesApi.Env) (year : String) :
    ∃ j, MoviesApi.fetch_movies_by_year env year = .ok (pyDumps4 j) := by
  rw [MoviesApi.fetch_movies_by_year]
  rcases h : env.db
      "SELECT c.title Title, c.year Year, c.genres Genres FROM c WHERE c.year = @year"
      [("@year", .str year)] with ⟨⟩ | l
  · rw [query_db_error env _ _ h]
    exact ⟨.str (pyDumps4 (.str MoviesApi.dbErrMsg)), rfl⟩
  · rw [query_db_items env _ _ l h]
    exact ⟨.arr l, rfl⟩

/-- `display_result` with a truthy summary on a well-formed head record. -/
lemma display_result_summary (m : Json) (rest : List Json)
    (resp : MoviesApi.AiResp) (hm : MoviesApi.MovieRecOk m)
    (hc : resp.message.content ≠ []) :
    ∃ j, MoviesApi.display_result (.lst (m :: rest)) (some resp) =
      .ok (pyDumps4 j) := by
  obtain ⟨⟨t, ht⟩, ⟨y, hy⟩, ⟨gj, gen, hg, hgen⟩⟩ := hm
  rcases hcont : resp.message.content with _ | ⟨c, cs⟩
  · exact absurd hcont hc
  · refine ⟨.obj [("Title", t), ("Year", y), ("Genres", .str gen),
      ("Summary", .str c.text)], ?_⟩
    rw [MoviesApi.display_result, ht]
    dsimp only
    rw [hy]
    dsimp only
    rw [hg]
    dsimp only
    rw [hgen]
    dsimp only
    rw [hcont]

/-- `fetch_movie_summary` succeeds with a dumped JSON value whenever the
database query answers with well-formed records and the Cohere response
(if any) is well-formed. -/
lemma fetch_movie_summary_is_json (env : MoviesApi.Env) (name : String)
    (l : List Json)
    (hdb : env.db MoviesApi.movieSummaryQuery [("@movie_name", .str name)] = .ok l)
    (hl : ∀ m ∈ l, MoviesApi.MovieRecOk m) (hco : MoviesApi.CohereOk env) :
    ∃ j, MoviesApi.fetch_movie_summary env name = .ok (pyDumps4 j) := by
  rw [MoviesApi.fetch_movie_summary, query_db_items env _ _ l hdb]
  rcases l with _ | ⟨m, rest⟩
  · exact ⟨.str "Movie not in database.", rfl⟩
  · have hm := hl m (List.mem_cons_self m rest)
    obtain ⟨y, hy⟩ := hm.2.1
    dsimp only
    rw [hy]
    dsimp only
    rcases hch : env.cohere with ⟨⟩ | resp
    · exact ⟨.str ("An error occurred while generating a summary for " ++
        name ++ ". Please try again later."), rfl⟩
    · exact display_result_summary m rest resp hm (hco resp hch)

/-- C2 counterexample: a request URL to the `getmoviesbyyear` route whose
trailing `/`-separated part is empty (so it does not parse as an
integer). The claim, as stated, demands a status-400 response; the
handler instead skips the `response` assignment and raises
`UnboundLocalError`, returning no response at all. The environment is
healthy (the database answers with an empty listing). -/
theorem c2_counterexample :
    MoviesApi.getMoviesByYear ⟨fun _ _ => .ok [], .ok ⟨⟨[⟨"A summary."⟩]⟩⟩⟩
      "http://localhost:7071/api/getmoviesbyyear/2020?x=/" =
      .error PyErr.unboundLocal := by
  rfl

/-- C2 (amended): `getmovies` always answers 200 with a JSON body;
`getmoviesbyyear/{year}` answers 200 with a JSON body when the trailing
`/`-separated part of the request URL is non-empty and parses as an
integer, answers 400 with the explanatory message when that part is
non-empty and does not parse, and raises `UnboundLocalError` (returning
no response) when that part is empty; `getmoviesummary/{movie_name}`
answers 400 when the movie name is empty after stripping, and otherwise
answers 200 with a JSON body provided the database answers with
well-formed records and the Cohere response is well-formed. -/
theorem c2_http_routes :
    (∀ env, ∃ body j, MoviesApi.getMovies env =
        .ok ⟨body, 200, some "application/json"⟩ ∧ body = pyDumps4 j) ∧
    (∀ env url,
      (∀ n, pyIntParse ((pySplit url '/').getLastD "") = some n →
        ∃ body j, MoviesApi.getMoviesByYear env url =
          .ok ⟨body, 200, some "application/json"⟩ ∧ body = pyDumps4 j) ∧
      ((pySplit url '/').getLastD "" ≠ "" →
        pyIntParse ((pySplit url '/').getLastD "") = none →
        MoviesApi.getMoviesByYear env url = .ok ⟨MoviesApi.yearErrMsg, 400, none⟩) ∧
      ((pySplit url '/').getLastD "" = "" →
        MoviesApi.getMoviesByYear env url = .error PyErr.unboundLocal)) ∧
    (∀ env url,
      (pyUnquote (pyStrip ((pySplit url '/').getLastD "")) = "" →
        MoviesApi.getMovieSummary env url = .ok ⟨MoviesApi.movieErrMsg, 400, none⟩) ∧
      (∀ l, env.db MoviesApi.movieSummaryQuery
          [("@movie_name",
            .str (pyUnquote (pyStrip ((pySplit url '/').getLastD ""))))] = .ok l →
        (∀ m ∈ l, MoviesApi.MovieRecOk m) → MoviesApi.CohereOk env →
        pyUnquote (pyStrip ((pySplit url '/').getLastD "")) ≠ "" →
        ∃ body j, MoviesApi.getMovieSummary env url =
          .ok ⟨body, 200, some "application/json"⟩ ∧ body = pyDumps4 j)) := by
  refine ⟨fun env => ?_, fun env url => ⟨fun n hn => ?_, fun hne hnone => ?_,
    fun hemp => ?_⟩, fun env url => ⟨fun hemp => ?_, fun l hdb hl hco hne => ?_⟩⟩
  · obtain ⟨j, hj⟩ := fetch_movies_is_json env
    rw [MoviesApi.getMovies, hj]
    exact ⟨pyDumps4 j, j, rfl, rfl⟩
  · have hne : (pySplit url '/').getLastD "" ≠ "" := by
      intro h
      rw [h] at hn
      exact Option.noConfusion ((rfl : pyIntParse "" = none) ▸ hn)
    rw [MoviesApi.getMoviesByYear]
    rw [if_neg hne, hn]
    obtain ⟨j, hj⟩ := fetch_movies_by_year_is_json env ((pySplit url '/').getLastD "")
    rw [hj]
    exact ⟨pyDumps4 j, j, rfl, rfl⟩
  · rw [MoviesApi.getMoviesByYear]
    rw [if_neg hne, hnone]
  · rw [MoviesApi.getMoviesByYear]
    rw [if_pos hemp]
  · rw [MoviesApi.getMovieSummary]
    rw [if_pos hemp]
  · rw [MoviesApi.getMovieSummary]
    rw [if_neg hne]
    obtain ⟨j, hj⟩ := fetch_movie_summary_is_json env _ l hdb hl hco
    rw [hj]
    exact ⟨pyDumps4 j, j, rfl, rfl⟩

/-- Witness for C2 at concrete requests against a healthy environment:
a parseable year, a non-parseable year, an empty movie name, and a
present movie name. -/
theorem c2_witness :
    (∃ body j, MoviesApi.getMoviesByYear
        ⟨fun _ _ => .ok [], .ok ⟨⟨[⟨"A summary."⟩]⟩⟩⟩
        "http://localhost:7071/api/getmoviesbyyear/2010" =
        .ok ⟨body, 200, some "application/json"⟩ ∧ body = pyDumps4 j) ∧
    MoviesApi.getMoviesByYear ⟨fun _ _ => .ok [], .ok ⟨⟨[⟨"A summary."⟩]⟩⟩⟩
        "http://localhost:7071/api/getmoviesbyyear/abc" =
      .ok ⟨MoviesApi.yearErrMsg, 400, none⟩ ∧
    MoviesApi.getMovieSummary ⟨fun _ _ => .ok [], .ok ⟨⟨[⟨"A summary."⟩]⟩⟩⟩
        "http://localhost:7071/api/getmoviesummary/" =
      .ok ⟨MoviesApi.movieErrMsg, 400, none⟩ ∧
    (∃ body j, MoviesApi.getMovies ⟨fun _ _ => .ok [], .ok ⟨⟨[⟨"A summary."⟩]⟩⟩⟩ =
        .ok ⟨body, 200, some "application/json"⟩ ∧ body = pyDumps4 j) ∧
    (∃ body j, MoviesApi.getMovieSummary
        ⟨fun _ _ => .ok [], .ok ⟨⟨[⟨"A summary."⟩]⟩⟩⟩
        "http://localhost:7071/api/getmoviesummary/Inception" =
        .ok ⟨body, 200, some "application/json"⟩ ∧ body = pyDumps4 j) :=
  ⟨(c2_http_routes.2.1 _ _).1 2010 (by decide),
   (c2_http_routes.2.1 _ _).2.1 (by decide) (by decide),
   (c2_http_routes.2.2 _ _).1 (by decide),
   c2_http_routes.1 _,
   (c2_http_routes.2.2 _ _).2 [] rfl (by intro m hm; cases hm)
     (by intro r hr; injection hr with h; subst h; decide) (by decide)⟩

/-- C3 counterexample: the legacy root-level weather CLI
(`src/weather_app.py`, cited by the claim) wraps its `requests.get` call
in no handler at all, so a connection error propagates out of
`get_weather` instead of being caught at the boundary of the call, as
the claim asserts of every external call of the weather CLI. -/
theorem c3_counterexample :
    WeatherApp.get_weather_legacy ⟨"KEY"⟩ ⟨fun _ => .connErr⟩ "London" =
      .error PyErr.connectionError := rfl

/-- C3 (amended): the Weather App CLI's `make_api_request` turns every
handled failure of its API call into an error-message string — a
connection error, a timeout, a non-200 status and any other request
exception each produce their message, and only a 200 response produces
the parsed JSON — and the movies-API `query_db` turns any database
exception into a JSON-formatted error message; the legacy root-level
`weather_app.py`, by contrast, propagates its call's exceptions. -/
theorem c3_error_boundaries :
    (∀ (cfg : WeatherApp.Config) (env : WeatherApp.Env) (city : String),
      (env.request (WeatherApp.weatherUrl cfg city) = .connErr →
        WeatherApp.make_api_request cfg env city =
          .str "Couldn\x27t complete your request because you are not connected to the internet. Please check your internet connection and try again.") ∧
      (env.request (WeatherApp.weatherUrl cfg city) = .timeoutErr →
        WeatherApp.make_api_request cfg env city =
          .str "Your request timed out. Please try again later.") ∧
      (∀ status body, env.request (WeatherApp.weatherUrl cfg city) = .resp status body →
        status ≠ 200 →
        WeatherApp.make_api_request cfg env city =
          .str ("API request failed with status code: " ++ toString status)) ∧
      (∀ m, env.request (WeatherApp.weatherUrl cfg city) = .reqErr m →
        WeatherApp.make_api_request cfg env city =
          .str ("An error occurred during the API request: " ++ m)) ∧
      (∀ body, env.request (WeatherApp.weatherUrl cfg city) = .resp 200 body →
        WeatherApp.make_api_request cfg env city = .json body)) ∧
    (∀ (env : MoviesApi.Env) (q : String) (ps : List (String × Json)),
      env.db q ps = .error () →
      MoviesApi.query_db env q ps =
        .ok (.errStr (pyDumps4 (.str MoviesApi.dbErrMsg)))) := by
  refine ⟨fun cfg env city => ⟨fun h => ?_, fun h => ?_, fun status body h hs => ?_,
    fun m h => ?_, fun body h => ?_⟩, fun env q ps h => query_db_error env q ps h⟩
  · rw [WeatherApp.make_api_request, h]
  · rw [WeatherApp.make_api_request, h]
  · rw [WeatherApp.make_api_request, h]
    dsimp only
    rw [if_neg hs]
  · rw [WeatherApp.make_api_request, h]
  · rw [WeatherApp.make_api_request, h]
    dsimp only
    rw [if_pos rfl]

/-- Witness for C3 at concrete environments: one call per failure mode,
plus a failing database query. -/
theorem c3_witness :
    WeatherApp.make_api_request ⟨"KEY"⟩ ⟨fun _ => .connErr⟩ "Paris" =
      .str "Couldn\x27t complete your request because you are not connected to the internet. Please check your internet connection and try again." ∧
    WeatherApp.make_api_request ⟨"KEY"⟩ ⟨fun _ => .timeoutErr⟩ "Paris" =
      .str "Your request timed out. Please try again later." ∧
    WeatherApp.make_api_request ⟨"KEY"⟩ ⟨fun _ => .resp 404 .null⟩ "Paris" =
      .str "API request failed with status code: 404" ∧
    WeatherApp.make_api_request ⟨"KEY"⟩ ⟨fun _ => .reqErr "boom"⟩ "Paris" =
      .str "An error occurred during the API request: boom" ∧
    MoviesApi.query_db ⟨fun _ _ => .error (), .ok ⟨⟨[]⟩⟩⟩ "q" [] =
      .ok (.errStr (pyDumps4 (.str MoviesApi.dbErrMsg))) :=
  ⟨(c3_error_boundaries.1 ⟨"KEY"⟩ ⟨fun _ => .connErr⟩ "Paris").1 rfl,
   (c3_error_boundaries.1 ⟨"KEY"⟩ ⟨fun _ => .timeoutErr⟩ "Paris").2.1 rfl,
   ((c3_error_boundaries.1 ⟨"KEY"⟩ ⟨fun _ => .resp 404 .null⟩ "Paris").2.2.1 404 .null
      rfl (by decide)).trans (by rfl),
   (c3_error_boundaries.1 ⟨"KEY"⟩ ⟨fun _ => .reqErr "boom"⟩ "Paris").2.2.2.1 "boom" rfl,
   c3_error_boundaries.2 ⟨fun _ _ => .error (), .ok ⟨⟨[]⟩⟩⟩ "q" [] rfl⟩

/-- Joining a list of JSON strings with `", "` is the plain string
intercalation. -/
lemma pyJoinGenres_strs (gs : List String) :
    MoviesApi.pyJoinGenres (.arr (gs.map Json.str)) =
      .ok (String.intercalate ", " gs) := by
  rw [MoviesApi.pyJoinGenres]
  have : MoviesApi.strList (gs.map Json.str) = some gs := by
    induction gs with
    | nil => rfl
    | cons g rest ih => simp [MoviesApi.strList, ih]
  rw [this]

/-- C6 counterexample: with a non-empty summary and the empty result
list, `display_result` subscripts `result[0]` and raises `IndexError`
instead of producing a JSON object, so the claim's "for every result
list" fails at the empty list. -/
theorem c6_counterexample :
    MoviesApi.display_result (.lst []) (some ⟨⟨[⟨"A plot summary."⟩]⟩⟩) =
      .error PyErr.indexError := rfl

/-- C6 (amended): for every result list whose first item is a movie
record (with `title`, `year`, and a list-of-strings `genres`) and every
truthy summary with non-empty content, `display_result` produces the
4-space-indented JSON object with keys in the stable insertion order
`Title`, `Year`, `Genres`, `Summary`, the genres joined by a comma and a
space; with the default empty summary it produces the 4-space-indented
JSON serialization of the result list itself. -/
theorem c6_display_result :
    (∀ (kvs : List (String × Json)) (rest : List Json)
       (resp : MoviesApi.AiResp) (t y : Json) (gs : List String)
       (c : MoviesApi.AiContent) (cs : List MoviesApi.AiContent),
      kvs.lookup "title" = some t →
      kvs.lookup "year" = some y →
      kvs.lookup "genres" = some (.arr (gs.map Json.str)) →
      resp.message.content = c :: cs →
      MoviesApi.display_result (.lst (.obj kvs :: rest)) (some resp) =
        .ok (pyDumps4 (.obj
          [("Title", t), ("Year", y),
           ("Genres", .str (String.intercalate ", " gs)),
           ("Summary", .str c.text)]))) ∧
    (∀ l, MoviesApi.display_result (.lst l) none = .ok (pyDumps4 (.arr l))) := by
  constructor
  · intro kvs rest resp t y gs c cs ht hy hg hcont
    have h1 : MoviesApi.pySub (.obj kvs) "title" = .ok t := by
      rw [MoviesApi.pySub, ht]
    have h2 : MoviesApi.pySub (.obj kvs) "year" = .ok y := by
      rw [MoviesApi.pySub, hy]
    have h3 : MoviesApi.pySub (.obj kvs) "genres" = .ok (.arr (gs.map Json.str)) := by
      rw [MoviesApi.pySub, hg]
    rw [MoviesApi.display_result, h1]
    dsimp only
    rw [h2]
    dsimp only
    rw [h3]
    dsimp only
    rw [pyJoinGenres_strs]
    dsimp only
    rw [hcont]
  · intro l
    rfl

/-- Witness for C6 at a concrete movie record and summary, with the
emitted JSON spelled out: stable key order and 4-space indentation. -/
theorem c6_witness :
    MoviesApi.display_result
      (.lst [.obj [("title", .str "Inception"), ("year", .int 2010),
        ("genres", .arr [.str "Action", .str "Sci-Fi"])]])
      (some ⟨⟨[⟨"A heist in dreams."⟩]⟩⟩) =
      .ok ("\x7b\n    \"Title\": \"Inception\",\n    \"Year\": 2010,\n    \"Genres\": \"Action, Sci-Fi\",\n    \"Summary\": \"A heist in dreams.\"\n\x7d") ∧
    MoviesApi.display_result (.lst []) none = .ok "[]" :=
  ⟨(c6_display_result.1
      [("title", .str "Inception"), ("year", .int 2010),
       ("genres", .arr [.str "Action", .str "Sci-Fi"])]
      [] ⟨⟨[⟨"A heist in dreams."⟩]⟩⟩ (.str "Inception") (.int 2010)
      ["Action", "Sci-Fi"] ⟨"A heist in dreams."⟩ []
      rfl rfl rfl rfl).trans (by rfl),
   (c6_display_result.2 []).trans (by rfl)⟩

namespace Deployer

lemma andThen_fst {α β : Type} (x : Tr α) (f : α → Tr β) :
    (andThen x f).1 =
      x.1 ++ (match x.2 with | .ok a => (f a).1 | .error _ => []) := by
  rcases x with ⟨t, r⟩
  rcases r with e | a
  · simp [andThen]
  · simp [andThen]

lemma andThen_snd {α β : Type} (x : Tr α) (f : α → Tr β) :
    (andThen x f).2 =
      (match x.2 with | .ok a => (f a).2 | .error e => .error e) := by
  rcases x with ⟨t, r⟩
  rcases r with e | a
  · simp [andThen]
  · simp [andThen]

lemma andThen_ok_ex {α β : Type} {x : Tr α} {f : α → Tr β} {b : β}
    (h : (andThen x f).2 = .ok b) : ∃ a, x.2 = .ok a ∧ (f a).2 = .ok b := by
  rw [andThen_snd] at h
  rcases hx : x.2 with e | a
  · rw [hx] at h
    exact absurd h (by simp)
  · rw [hx] at h
    exact ⟨a, rfl, h⟩

lemma mem_andThen_left {α β : Type} {x : Tr α} {f : α → Tr β} {e : Ev}
    (h : e ∈ x.1) : e ∈ (andThen x f).1 := by
  rw [andThen_fst]
  exact List.mem_append_left _ h

lemma mem_andThen_right {α β : Type} {x : Tr α} {f : α → Tr β} {a : α} {e : Ev}
    (hx : x.2 = .ok a) (h : e ∈ (f a).1) : e ∈ (andThen x f).1 := by
  rw [andThen_fst, hx]
  exact List.mem_append_right _ h

lemma majors_append (t1 t2 : List Ev) :
    majors (t1 ++ t2) = majors t1 ++ majors t2 := by
  simp [majors]

lemma phased_nil (lo hi : Nat) : Phased lo hi [] :=
  ⟨List.Pairwise.nil, by simp [majors]⟩

lemma phased_mono (lo hi lo' hi' : Nat) {t : List Ev} (h : Phased lo hi t)
    (hl : lo' ≤ lo) (hh : hi ≤ hi') : Phased lo' hi' t :=
  ⟨h.1, fun p hp => ⟨le_trans hl (h.2 p hp).1, le_trans (h.2 p hp).2 hh⟩⟩

lemma phased_append (lo1 hi1 lo2 hi2 : Nat) {t1 t2 : List Ev}
    (h1 : Phased lo1 hi1 t1) (h2 : Phased lo2 hi2 t2)
    (h12 : hi1 ≤ lo2) (hlo : lo1 ≤ lo2) (hhi : hi1 ≤ hi2) :
    Phased lo1 hi2 (t1 ++ t2) := by
  constructor
  · rw [majors_append, List.pairwise_append]
    exact ⟨h1.1, h2.1, fun a ha b hb =>
      le_trans (h1.2 a ha).2 (le_trans h12 (h2.2 b hb).1)⟩
  · rw [majors_append]
    intro p hp
    rcases List.mem_append.mp hp with h | h
    · exact ⟨(h1.2 p h).1, le_trans (h1.2 p h).2 hhi⟩
    · exact ⟨le_trans hlo (h2.2 p h).1, (h2.2 p h).2⟩

lemma phased_andThen {α β : Type} (lo1 hi1 lo2 hi2 : Nat) {x : Tr α}
    {f : α → Tr β} (h1 : Phased lo1 hi1 x.1) (h2 : ∀ a, Phased lo2 hi2 (f a).1)
    (h12 : hi1 ≤ lo2) (hlo : lo1 ≤ lo2) (hhi : hi1 ≤ hi2) :
    Phased lo1 hi2 (andThen x f).1 := by
  rw [andThen_fst]
  rcases hx : x.2 with e | a
  · exact phased_append lo1 hi1 lo2 hi2 h1 (phased_nil lo2 hi2) h12 hlo hhi
  · exact phased_append lo1 hi1 lo2 hi2 h1 (h2 a) h12 hlo hhi

lemma phased_singleton {e : Ev} {k : Nat} (h : majorPhase e = some k) :
    Phased k k [e] := by
  constructor
  · simp [majors, h]
  · simp [majors, h]

lemma phased_silent {e : Ev} (h : majorPhase e = none) (lo hi : Nat) :
    Phased lo hi [e] := by
  constructor
  · simp [majors, h]
  · simp [majors, h]

end Deployer

namespace Deployer

lemma phased_create_infrastructure (env : AzureEnv) (g v s n : String)
    (t2 : Bool) : Phased 1 3 (create_infrastructure env g v s n t2).1 := by
  unfold create_infrastructure
  refine phased_andThen 1 1 2 3 (phased_singleton (by rfl)) (fun _ => ?_)
    (by omega) (by omega) (by omega)
  refine phased_andThen 2 2 3 3 (phased_singleton (by rfl)) (fun nsg_info => ?_)
    (by omega) (by omega) (by omega)
  rcases nsg_info with _ | id
  · exact phased_nil 3 3
  · exact phased_singleton (by rfl)

lemma phased_create_webserver (env : AzureEnv) (g v s w : String) (k : Nat) :
    Phased 4 4 (create_webserver env g v s w k).1 := by
  unfold create_webserver
  refine phased_andThen 4 4 4 4 ?_ (fun _ => ?_) le_rfl le_rfl le_rfl
  · exact phased_silent (by rfl) 4 4
  refine phased_andThen 4 4 4 4 ?_ (fun _ => ?_) le_rfl le_rfl le_rfl
  · exact phased_silent (by rfl) 4 4
  refine phased_andThen 4 4 4 4 ?_ (fun _ => ?_) le_rfl le_rfl le_rfl
  · exact phased_singleton (by rfl)
  exact phased_silent (by rfl) 4 4

lemma phased_webserverLoop (env : AzureEnv) (g v s w : String) :
    ∀ ks, Phased 4 4 (webserverLoop env g v s w ks).1
  | [] => phased_nil 4 4
  | k :: ks => by
    rw [webserverLoop]
    exact phased_andThen 4 4 4 4 (phased_create_webserver env g v s w k)
      (fun _ => phased_webserverLoop env g v s w ks) le_rfl le_rfl le_rfl

lemma phased_create_dbserver (env : AzureEnv) (g v s db : String) :
    Phased 4 4 (create_dbserver env g v s db).1 := by
  unfold create_dbserver
  refine phased_andThen 4 4 4 4 ?_ (fun _ => ?_) le_rfl le_rfl le_rfl
  · exact phased_silent (by rfl) 4 4
  exact phased_singleton (by rfl)

lemma phased_create_lb (env : AzureEnv) (g : String) :
    Phased 5 5 (create_lb env g).1 := by
  unfold create_lb
  refine phased_andThen 5 5 5 5 ?_ (fun pip => ?_) le_rfl le_rfl le_rfl
  · exact phased_silent (by rfl) 5 5
  rcases pip with _ | i
  · exact phased_nil 5 5
  · exact phased_singleton (by rfl)

lemma phased_backendLoop (env : AzureEnv) (g w : String) :
    ∀ ks, Phased 6 6 (backendLoop env g w ks).1
  | [] => phased_nil 6 6
  | k :: ks => by
    rw [backendLoop]
    exact phased_andThen 6 6 6 6 (phased_singleton (by rfl))
      (fun _ => phased_backendLoop env g w ks) le_rfl le_rfl le_rfl

lemma phased_add_backend (env : AzureEnv) (g w : String) (num : Nat) :
    Phased 6 6 (add_webserver_to_backend env g w num).1 := by
  unfold add_webserver_to_backend
  refine phased_andThen 6 6 6 6 ?_ (fun _ => ?_) le_rfl le_rfl le_rfl
  · exact phased_silent (by rfl) 6 6
  rcases env.poolId with _ | pid
  · exact phased_nil 6 6
  · exact phased_backendLoop env g w (List.range num)

lemma phased_rgFinish (env : AzureEnv) (g : String) :
    Phased 0 0 (rgFinish env g).1 := by
  unfold rgFinish
  rcases validate_group_name g env.rgInputs with _ | name
  · exact phased_nil 0 0
  · exact phased_singleton (by rfl)

lemma phased_create_resource_group (env : AzureEnv) :
    ∀ (fuel : Nat) (g : String), Phased 0 0 (create_resource_group env fuel g).1
  | 0, _ => phased_nil 0 0
  | fuel + 1, g => by
    rw [create_resource_group]
    refine phased_andThen 0 0 0 0 ?_ (fun _ => ?_) le_rfl le_rfl le_rfl
    · exact phased_silent (by rfl) 0 0
    by_cases hex : env.rgExists g
    · rw [if_pos hex]
      exact phased_andThen 0 0 0 0
        (phased_create_resource_group env fuel (g ++ "-" ++ env.uuid5 fuel))
        (fun _ => phased_rgFinish env (g ++ "-" ++ env.uuid5 fuel))
        le_rfl le_rfl le_rfl
    · rw [if_neg hex]
      exact phased_rgFinish env g

lemma phased_tier3 (env : AzureEnv) (g v s n w db : String) (num : Nat) :
    Phased 1 6 (tier3 env g v s n w db num).1 := by
  unfold tier3
  refine phased_andThen 1 3 4 6 (phased_create_infrastructure env g v s n false)
    (fun _ => ?_) (by omega) (by omega) (by omega)
  refine phased_andThen 4 4 4 6 (phased_webserverLoop env g v s w (List.range num))
    (fun _ => ?_) le_rfl le_rfl (by omega)
  refine phased_andThen 4 4 5 6 (phased_create_dbserver env g v s db)
    (fun _ => ?_) (by omega) (by omega) (by omega)
  refine phased_andThen 5 5 6 6 (phased_create_lb env g)
    (fun _ => ?_) (by omega) (by omega) (by omega)
  exact phased_add_backend env g w num

lemma phased_setup_tier3 (env : AzureEnv) (fuel : Nat)
    (g v s n w db : String) (num : Nat) :
    Phased 0 6 (setup_tier3 env fuel g v s n w db num).1 := by
  unfold setup_tier3
  exact phased_andThen 0 0 1 6 (phased_create_resource_group env fuel g)
    (fun gName => phased_tier3 env gName v s n w db num)
    (by omega) (by omega) (by omega)

end Deployer

namespace Deployer

lemma subnet_not_in_rgFinish (env : AzureEnv) (g : String) :
    ∀ a b c d, Ev.subnetCreate a b c d ∉ (rgFinish env g).1 := by
  intro a b c d
  unfold rgFinish
  rcases validate_group_name g env.rgInputs with _ | name
  · simp
  · simp

lemma subnet_not_in_rg (env : AzureEnv) :
    ∀ (fuel : Nat) (g : String) (a b c d : String),
      Ev.subnetCreate a b c d ∉ (create_resource_group env fuel g).1
  | 0, g, a, b, c, d => by simp [create_resource_group]
  | fuel + 1, g, a, b, c, d => by
    rw [create_resource_group]
    intro hmem
    rw [andThen_fst] at hmem
    dsimp only at hmem
    rcases List.mem_append.mp hmem with h | h
    · simp at h
    · by_cases hex : env.rgExists g
      · rw [if_pos hex] at h
        rw [andThen_fst] at h
        rcases List.mem_append.mp h with h2 | h2
        · exact subnet_not_in_rg env fuel (g ++ "-" ++ env.uuid5 fuel) a b c d h2
        · rcases hrec : (create_resource_group env fuel
              (g ++ "-" ++ env.uuid5 fuel)).2 with e | gn
          · rw [hrec] at h2
            simp at h2
          · rw [hrec] at h2
            exact subnet_not_in_rgFinish env (g ++ "-" ++ env.uuid5 fuel) a b c d h2
      · rw [if_neg hex] at h
        exact subnet_not_in_rgFinish env g a b c d h

lemma infra_no_subnet (env : AzureEnv) (g v s n : String) (t2 : Bool)
    (h : ∀ id, env.nsgResult ≠ .ok (some id)) :
    (∀ a b c d, Ev.subnetCreate a b c d ∉ (create_infrastructure env g v s n t2).1) ∧
    (create_infrastructure env g v s n t2).2 = .error () := by
  unfold create_infrastructure create_vnet create_nsg_group create_subnet
  rcases hv : env.vnetOk
  · constructor
    · intro a b c d
      simp [andThen]
    · simp [andThen]
  · rcases hn : env.nsgResult with e | r
    · constructor
      · intro a b c d
        simp [andThen, hn]
      · simp [andThen, hn]
    · rcases r with _ | id
      · constructor
        · intro a b c d
          simp [andThen, hn]
        · simp [andThen, hn]
      · exact absurd hn (h id)

lemma setup_subnet_needs_nsg (env : AzureEnv) (fuel : Nat)
    (g v s n w db : String) (num : Nat)
    (hmem : ∃ a b c d, Ev.subnetCreate a b c d ∈
      (setup_tier3 env fuel g v s n w db num).1) :
    ∃ id, env.nsgResult = .ok (some id) := by
  by_contra hno
  push_neg at hno
  obtain ⟨a, b, c, d, hmem⟩ := hmem
  unfold setup_tier3 at hmem
  rw [andThen_fst] at hmem
  rcases List.mem_append.mp hmem with h | h
  · exact subnet_not_in_rg env fuel g a b c d h
  · rcases hrg : (create_resource_group env fuel g).2 with e | gName
    · rw [hrg] at h
      simp at h
    · rw [hrg] at h
      dsimp only at h
      unfold tier3 at h
      rw [andThen_fst] at h
      rcases List.mem_append.mp h with h2 | h2
      · exact (infra_no_subnet env gName v s n false hno).1 a b c d h2
      · rw [(infra_no_subnet env gName v s n false hno).2] at h2
        simp at h2

end Deployer

namespace Deployer

lemma rg_happy (env : AzureEnv) (fuel : Nat) (g : String)
    (hex : ∀ x, env.rgExists x = false) (hg : ValidGroupName g) :
    majors (create_resource_group env (fuel + 1) g).1 = [0] ∧
    (create_resource_group env (fuel + 1) g).2 = .ok g := by
  have hval : validate_group_name g env.rgInputs = some g := by
    rw [validate_group_name.eq_def, if_pos ((groupName_accept_iff g).mpr hg)]
  rw [create_resource_group]
  constructor
  · rw [andThen_fst]
    dsimp only
    rw [if_neg (by rw [hex g]; exact Bool.false_ne_true)]
    rw [rgFinish, hval]
    simp [majors, majorPhase]
  · rw [andThen_snd]
    dsimp only
    rw [if_neg (by rw [hex g]; exact Bool.false_ne_true)]
    rw [rgFinish, hval]

lemma infra_happy (env : AzureEnv) (g v s n : String) (t2 : Bool) (id : String)
    (hv : env.vnetOk = true) (hn : env.nsgResult = .ok (some id))
    (hs : env.subnetOk = true) :
    majors (create_infrastructure env g v s n t2).1 = [1, 2, 3] ∧
    (create_infrastructure env g v s n t2).2 = .ok () := by
  unfold create_infrastructure create_vnet create_nsg_group create_subnet
  constructor
  · simp [andThen, hv, hn, hs, majors, majorPhase]
  · simp [andThen, hv, hn, hs]

lemma ws_happy (env : AzureEnv) (g v s w : String) (k : Nat)
    (hpip : ∀ p, ∃ i, env.pipResult p = .ok (some i))
    (hnic : ∀ i, env.nicOk i = true) (hvm : ∀ x, env.vmOk x = true) :
    majors (create_webserver env g v s w k).1 = [4] ∧
    (create_webserver env g v s w k).2 = .ok () := by
  obtain ⟨i, hi⟩ := hpip (w ++ toString k ++ "_ip")
  unfold create_webserver create_publicip_address create_nic install_iis
  constructor
  · simp [andThen, hi, hnic, hvm, majors, majorPhase]
  · simp [andThen, hi, hnic, hvm]

lemma wsLoop_happy (env : AzureEnv) (g v s w : String)
    (hpip : ∀ p, ∃ i, env.pipResult p = .ok (some i))
    (hnic : ∀ i, env.nicOk i = true) (hvm : ∀ x, env.vmOk x = true) :
    ∀ ks, majors (webserverLoop env g v s w ks).1 = List.replicate ks.length 4 ∧
      (webserverLoop env g v s w ks).2 = .ok ()
  | [] => by simp [webserverLoop, majors]
  | k :: ks => by
    have hw := ws_happy env g v s w k hpip hnic hvm
    have ih := wsLoop_happy env g v s w hpip hnic hvm ks
    rw [webserverLoop]
    constructor
    · rw [andThen_fst, hw.2, majors_append, hw.1, ih.1]
      simp [List.replicate_succ]
    · rw [andThen_snd, hw.2]
      exact ih.2

lemma db_happy (env : AzureEnv) (g v s db : String)
    (hnic : ∀ i, env.nicOk i = true) (hvm : ∀ x, env.vmOk x = true) :
    majors (create_dbserver env g v s db).1 = [4] ∧
    (create_dbserver env g v s db).2 = .ok () := by
  unfold create_dbserver create_nic
  constructor
  · simp [andThen, hnic, hvm, majors, majorPhase]
  · simp [andThen, hnic, hvm]

lemma lb_happy (env : AzureEnv) (g : String)
    (hpip : ∀ p, ∃ i, env.pipResult p = .ok (some i)) :
    majors (create_lb env g).1 = [5] ∧ (create_lb env g).2 = .ok () := by
  obtain ⟨i, hi⟩ := hpip (g ++ "_lb" ++ "_ip")
  unfold create_lb create_publicip_address
  constructor
  · simp [andThen, hi, majors, majorPhase]
  · simp [andThen, hi]

lemma backendLoop_happy (env : AzureEnv) (g w : String)
    (hupd : ∀ i, env.nicUpdateOk i = true) :
    ∀ ks, majors (backendLoop env g w ks).1 = List.replicate ks.length 6 ∧
      (backendLoop env g w ks).2 = .ok ()
  | [] => by simp [backendLoop, majors]
  | k :: ks => by
    have ih := backendLoop_happy env g w hupd ks
    rw [backendLoop]
    constructor
    · rw [andThen_fst]
      dsimp only
      rw [hupd, if_pos rfl]
      dsimp only
      rw [majors_append, ih.1]
      simp [majors, majorPhase, List.replicate_succ]
    · rw [andThen_snd]
      dsimp only
      rw [hupd, if_pos rfl]
      exact ih.2

lemma backend_happy (env : AzureEnv) (g w : String) (num : Nat)
    (hpool : ∃ pid, env.poolId = some pid)
    (hupd : ∀ i, env.nicUpdateOk i = true) :
    majors (add_webserver_to_backend env g w num).1 = List.replicate num 6 ∧
    (add_webserver_to_backend env g w num).2 = .ok () := by
  obtain ⟨pid, hpid⟩ := hpool
  have hb := backendLoop_happy env g w hupd (List.range num)
  unfold add_webserver_to_backend
  constructor
  · rw [andThen_fst]
    dsimp only
    rw [hpid]
    dsimp only
    rw [majors_append, hb.1, List.length_range]
    simp [majors, majorPhase]
  · rw [andThen_snd]
    dsimp only
    rw [hpid]
    exact hb.2

lemma tier3_happy (env : AzureEnv) (g v s n w db : String) (num : Nat)
    (hok : AllOk env) :
    majors (tier3 env g v s n w db num).1 =
      [1, 2, 3] ++ List.replicate num 4 ++ [4, 5] ++ List.replicate num 6 ∧
    (tier3 env g v s n w db num).2 = .ok () := by
  obtain ⟨hex, hv, ⟨id, hn⟩, hs, hpip, hnic, hvm, hpool, hupd⟩ := hok
  have h1 := infra_happy env g v s n false id hv hn hs
  have h2 := wsLoop_happy env g v s w hpip hnic hvm (List.range num)
  have h3 := db_happy env g v s db hnic hvm
  have h4 := lb_happy env g hpip
  have h5 := backend_happy env g w num hpool hupd
  unfold tier3
  constructor
  · rw [andThen_fst, h1.2]
    dsimp only
    rw [andThen_fst, h2.2]
    dsimp only
    rw [andThen_fst, h3.2]
    dsimp only
    rw [andThen_fst, h4.2]
    dsimp only
    rw [majors_append, majors_append, majors_append, majors_append,
      h1.1, h2.1, h3.1, h4.1, h5.1, List.length_range]
    simp [List.append_assoc]
  · rw [andThen_snd, h1.2]
    dsimp only
    rw [andThen_snd, h2.2]
    dsimp only
    rw [andThen_snd, h3.2]
    dsimp only
    rw [andThen_snd, h4.2]
    exact h5.2

lemma setup_happy (env : AzureEnv) (fuel : Nat) (g v s n w db : String)
    (num : Nat) (hok : AllOk env) (hg : ValidGroupName g) :
    majors (setup_tier3 env (fuel + 1) g v s n w db num).1 = tier3Majors num := by
  have hrg := rg_happy env fuel g hok.1 hg
  have ht := tier3_happy env g v s n w db num hok
  unfold setup_tier3
  rw [andThen_fst, hrg.2]
  dsimp only
  rw [majors_append, hrg.1, ht.1, tier3Majors]
  simp [List.append_assoc]

end Deployer

namespace Deployer

lemma noLb_nil : NoLb [] := fun _ _ h => absurd h (List.not_mem_nil _)

lemma noLb_single {e : Ev} (h : ∀ lb grp, e ≠ Ev.lbCreate lb grp) : NoLb [e] := by
  intro lb grp hm
  exact h lb grp (List.mem_singleton.mp hm).symm

lemma noLb_andThen {α β : Type} {x : Tr α} {f : α → Tr β} (h1 : NoLb x.1)
    (h2 : ∀ a, NoLb (f a).1) : NoLb (andThen x f).1 := by
  intro lb grp hmem
  rw [andThen_fst] at hmem
  rcases List.mem_append.mp hmem with h | h
  · exact h1 lb grp h
  · rcases hx : x.2 with e | a
    · rw [hx] at h
      exact absurd h (List.not_mem_nil _)
    · rw [hx] at h
      exact h2 a lb grp h

lemma noLb_create_infrastructure (env : AzureEnv) (g v s n : String)
    (t2 : Bool) : NoLb (create_infrastructure env g v s n t2).1 := by
  unfold create_infrastructure create_vnet create_nsg_group create_subnet
  refine noLb_andThen (noLb_single fun _ _ h => Ev.noConfusion h) (fun _ => ?_)
  refine noLb_andThen (noLb_single fun _ _ h => Ev.noConfusion h) (fun nsg_info => ?_)
  rcases nsg_info with _ | id
  · exact noLb_nil
  · exact noLb_single fun _ _ h => Ev.noConfusion h

lemma noLb_create_webserver (env : AzureEnv) (g v s w : String) (k : Nat) :
    NoLb (create_webserver env g v s w k).1 := by
  unfold create_webserver create_publicip_address create_nic install_iis
  refine noLb_andThen (noLb_single fun _ _ h => Ev.noConfusion h) (fun _ => ?_)
  refine noLb_andThen (noLb_single fun _ _ h => Ev.noConfusion h) (fun _ => ?_)
  refine noLb_andThen (noLb_single fun _ _ h => Ev.noConfusion h) (fun _ => ?_)
  exact noLb_single fun _ _ h => Ev.noConfusion h

lemma noLb_create_dbserver (env : AzureEnv) (g v s db : String) :
    NoLb (create_dbserver env g v s db).1 := by
  unfold create_dbserver create_nic
  exact noLb_andThen (noLb_single fun _ _ h => Ev.noConfusion h)
    (fun _ => noLb_single fun _ _ h => Ev.noConfusion h)

lemma lb_mem_create_lb (env : AzureEnv) (g : String)
    (h : (create_lb env g).2 = .ok ()) :
    Ev.lbCreate (g ++ "_lb") g ∈ (create_lb env g).1 := by
  unfold create_lb at h ⊢
  obtain ⟨pip, hpip, hrest⟩ := andThen_ok_ex h
  rcases pip with _ | i
  · exact absurd hrest (by simp)
  · exact mem_andThen_right hpip (by simp)

end Deployer

/-- C1: the tier-3 provisioning operation — the spec-modelled CLI setup
step (resource-group creation) followed by `Infrastructure.tier3` with
`create_infrastructure` — issues its remote create/attach calls in the
fixed order resource group ≤ VNet ≤ NSG ≤ subnet ≤ VM(s) ≤ load
balancer ≤ backend-pool attach in every environment; it issues a
subnet-creation call only if the NSG-creation call returned its
mandatory (truthy) NSG object; and when every call succeeds with its
mandatory object, the major calls are exactly the claimed sequence. -/
theorem c1_tier3_order :
    ∀ (env : Deployer.AzureEnv) (fuel : Nat) (g v s n w db : String) (num : Nat),
      (Deployer.majors (Deployer.setup_tier3 env fuel g v s n w db num).1).Pairwise
        (fun a b => a ≤ b) ∧
      ((∃ a b c d, Deployer.Ev.subnetCreate a b c d ∈
          (Deployer.setup_tier3 env fuel g v s n w db num).1) →
        ∃ id, env.nsgResult = .ok (some id)) ∧
      (Deployer.AllOk env → ValidGroupName g →
        Deployer.majors (Deployer.setup_tier3 env (fuel + 1) g v s n w db num).1 =
          Deployer.tier3Majors num) :=
  fun env fuel g v s n w db num =>
    ⟨(Deployer.phased_setup_tier3 env fuel g v s n w db num).1,
     fun hmem => Deployer.setup_subnet_needs_nsg env fuel g v s n w db num hmem,
     fun hok hg => Deployer.setup_happy env fuel g v s n w db num hok hg⟩

/-- Witness for C1: a complete two-webserver deployment in the
all-success environment issues exactly the claimed sequence — resource
group, VNet, NSG, subnet, three VMs, load balancer, two backend
attachments — and the NSG call indeed returned its object. -/
theorem c1_witness :
    Deployer.majors
      (Deployer.setup_tier3 Deployer.happyEnv 1 "grp" "vnet" "sub" "nsg"
        "web" "db" 2).1 = [0, 1, 2, 3, 4, 4, 4, 5, 6, 6] ∧
    (∃ id, Deployer.happyEnv.nsgResult = .ok (some id)) := by
  constructor
  · have h := (c1_tier3_order Deployer.happyEnv 0 "grp" "vnet" "sub" "nsg"
      "web" "db" 2).2.2
      (⟨fun _ => rfl, rfl, ⟨"nsg-id", rfl⟩, rfl,
        fun p => ⟨⟨p ++ "-id", "20.0.0.7"⟩, rfl⟩, fun _ => rfl, fun _ => rfl,
        ⟨"pool-id", rfl⟩, fun _ => rfl⟩)
      (by decide)
    rw [h]
    rfl
  · exact (c1_tier3_order Deployer.happyEnv 1 "grp" "vnet" "sub" "nsg"
      "web" "db" 2).2.1 ⟨"sub", "grp", "vnet", "nsg-id", by decide⟩

/-- C7: a tier-2 deployment never issues a load-balancer creation call
(in any environment); a tier-3 deployment that completes issues one; and
`info` reports tier 2 exactly when the load-balancer listing is empty
and tier 3 exactly when it is not. -/
theorem c7_tier_discrimination :
    (∀ (env : Deployer.AzureEnv) (g v s n w db : String) (lb grp : String),
      Deployer.Ev.lbCreate lb grp ∉ (Deployer.tier2 env g v s n w db).1) ∧
    (∀ (env : Deployer.AzureEnv) (g v s n w db : String) (num : Nat),
      (Deployer.tier3 env g v s n w db num).2 = .ok () →
      Deployer.Ev.lbCreate (g ++ "_lb") g ∈
        (Deployer.tier3 env g v s n w db num).1) ∧
    (∀ (env : Deployer.InfoEnv) (L : List String),
      env.lbs = .ok L → ∀ t ps, Deployer.info env = some (t, ps) →
      ((t = 2 ↔ L = []) ∧ (t = 3 ↔ L ≠ []))) := by
  refine ⟨fun env g v s n w db lb grp hmem => ?_, fun env g v s n w db num hok => ?_,
    fun env L hL t ps hinfo => ?_⟩
  · revert hmem
    unfold Deployer.tier2
    refine Deployer.noLb_andThen (Deployer.noLb_create_infrastructure env g v s n true)
      (fun _ => ?_) lb grp
    refine Deployer.noLb_andThen (Deployer.noLb_create_webserver env g v s w 0)
      (fun _ => ?_)
    exact Deployer.noLb_create_dbserver env g v s db
  · unfold Deployer.tier3 at hok ⊢
    obtain ⟨_, h1, hok⟩ := Deployer.andThen_ok_ex hok
    obtain ⟨_, h2, hok⟩ := Deployer.andThen_ok_ex hok
    obtain ⟨_, h3, hok⟩ := Deployer.andThen_ok_ex hok
    obtain ⟨_, h4, hok⟩ := Deployer.andThen_ok_ex hok
    exact Deployer.mem_andThen_right h1 (Deployer.mem_andThen_right h2
      (Deployer.mem_andThen_right h3 (Deployer.mem_andThen_left
        (Deployer.lb_mem_create_lb env g h4))))
  · rw [Deployer.info, hL] at hinfo
    rcases hv : env.vms with e | V
    · rw [hv] at hinfo
      exact absurd hinfo (by simp)
    · rw [hv] at hinfo
      rcases hp : env.pips with e | P
      · rw [hp] at hinfo
        exact absurd hinfo (by simp)
      · rw [hp] at hinfo
        dsimp only at hinfo
        injection hinfo with hpair
        have hteq : t = if L.isEmpty then 2 else 3 :=
          (congrArg Prod.fst hpair).symm
        rcases L with _ | ⟨x, xs⟩
        · rw [hteq]
          simp
        · rw [hteq]
          simp

/-- Witness for C7: the concrete all-success environment completes a
tier-3 deployment whose trace contains the load-balancer call, and the
`info` reports: tier 2 on an empty listing, tier 3 on a non-empty one. -/
theorem c7_witness :
    Deployer.Ev.lbCreate ("grp" ++ "_lb") "grp" ∉
      (Deployer.tier2 Deployer.happyEnv "grp" "vnet" "sub" "nsg" "web" "db").1 ∧
    Deployer.Ev.lbCreate ("grp" ++ "_lb") "grp" ∈
      (Deployer.tier3 Deployer.happyEnv "grp" "vnet" "sub" "nsg" "web" "db" 1).1 ∧
    ((2 = 2 ↔ ([] : List String) = []) ∧ (2 = 3 ↔ ([] : List String) ≠ [])) ∧
    ((3 = 2 ↔ ["grp_lb"] = ([] : List String)) ∧
     (3 = 3 ↔ ["grp_lb"] ≠ ([] : List String))) :=
  ⟨c7_tier_discrimination.1 Deployer.happyEnv "grp" "vnet" "sub" "nsg" "web" "db"
     ("grp" ++ "_lb") "grp",
   c7_tier_discrimination.2.1 Deployer.happyEnv "grp" "vnet" "sub" "nsg" "web" "db" 1
     (by rfl),
   c7_tier_discrimination.2.2 ⟨.ok [], .ok [], .ok []⟩ [] rfl 2 [] rfl,
   c7_tier_discrimination.2.2 ⟨.ok ["grp_lb"], .ok [], .ok []⟩ ["grp_lb"] rfl 3 []
     rfl⟩
